import Mathlib

/-!
Verification of the dialogue-resolution core of the AIBoomi WhatsApp bot.

The development shallowly embeds the TypeScript source: strings are lists
of characters, JavaScript timestamps are integers counting milliseconds
since the epoch, the relational store is a record of lists, and the
external collaborators (the LLM classifier, the task matcher and the
generic engine date parser) are parameters of the embedded functions.
-/

namespace Bot

/-! ## Character and string utilities (JS semantics on ASCII input) -/

/-- JS regex word character: letter, digit or underscore. -/
def isWordChar (c : Char) : Bool := c.isAlphanum || c = '_'

/-- Whitespace as used by `trim` and `\s`. -/
def isSpaceChar (c : Char) : Bool := c = ' ' || c = '\t' || c = '\n' || c = '\r'

/-- `String.prototype.toLowerCase` on ASCII text. -/
def lowerStr (s : List Char) : List Char := s.map Char.toLower

/-- `String.prototype.trim`. -/
def trimChars (s : List Char) : List Char :=
  ((s.dropWhile isSpaceChar).reverse.dropWhile isSpaceChar).reverse

/-- `a.includes(b)` on strings. -/
def containsSub (s w : List Char) : Bool :=
  (List.range (s.length + 1)).any (fun i => w.isPrefixOf (s.drop i))

/-- The word `w` occurs at index `i` of `s` with regex word boundaries
(`\bw\b`) on both sides. -/
def wordAt (s : List Char) (i : Nat) (w : List Char) : Bool :=
  w.isPrefixOf (s.drop i)
  && (decide (i = 0) || !(isWordChar (s.getD (i - 1) ' ')))
  && (decide (s.length ≤ i + w.length) || !(isWordChar (s.getD (i + w.length) ' ')))

/-- `new RegExp("\\b" + w + "\\b").test(s)`. -/
def hasWord (s w : List Char) : Bool :=
  (List.range (s.length + 1)).any (fun i => wordAt s i w)

/-- Numeric value of a run of decimal digits (`parseInt`). -/
def natOfRun (r : List Char) : Nat :=
  r.foldl (fun a c => a * 10 + (c.toNat - '0'.toNat)) 0

/-- Scanner collecting the maximal runs of decimal digits, left to right. -/
def digitRunsAux : List Char → List Char → List (List Char)
  | [], acc => if acc.isEmpty then [] else [acc.reverse]
  | c :: rest, acc =>
      if c.isDigit then digitRunsAux rest (c :: acc)
      else if acc.isEmpty then digitRunsAux rest []
      else acc.reverse :: digitRunsAux rest []

/-- All matches of `/(\d+)/g`: the maximal digit runs of `s` in order. -/
def digitRuns (s : List Char) : List (List Char) := digitRunsAux s []

/-! ## ReferenceResolver (src/unnamed/part_011)

`parseOrderNumberFromMessage` and `parseMultipleOrderNumbersFromMessage`
turn ordinal or numeric phrases into 1-based list positions. -/

/-- The `ordinalWords` object literal; `Object.entries` iterates it in
insertion order. -/
def ordinalWords : List (List Char × Nat) :=
  [("first".toList, 1), ("1st".toList, 1),
   ("second".toList, 2), ("2nd".toList, 2),
   ("third".toList, 3), ("3rd".toList, 3),
   ("fourth".toList, 4), ("4th".toList, 4),
   ("fifth".toList, 5), ("5th".toList, 5),
   ("sixth".toList, 6), ("6th".toList, 6),
   ("seventh".toList, 7), ("7th".toList, 7),
   ("eighth".toList, 8), ("8th".toList, 8),
   ("ninth".toList, 9), ("9th".toList, 9),
   ("tenth".toList, 10), ("10th".toList, 10)]

/-- Loop of `parseMultipleOrderNumbersFromMessage` over the extracted
numbers: keep a number when it is in range and not yet collected. -/
def collectNumbers (maxNumber : Nat) : List Nat → List Nat → List Nat
  | [], acc => acc
  | n :: rest, acc =>
      if 0 < n ∧ n ≤ maxNumber ∧ n ∉ acc then
        collectNumbers maxNumber rest (acc ++ [n])
      else collectNumbers maxNumber rest acc

/-- Loop of `parseMultipleOrderNumbersFromMessage` over the ordinal words:
keep the value when the word occurs with word boundaries, is in range and
not yet collected. -/
def collectOrdinals (lower : List Char) (maxNumber : Nat) :
    List (List Char × Nat) → List Nat → List Nat
  | [], acc => acc
  | (w, n) :: rest, acc =>
      if hasWord lower w = true ∧ n ≤ maxNumber ∧ n ∉ acc then
        collectOrdinals lower maxNumber rest (acc ++ [n])
      else collectOrdinals lower maxNumber rest acc

/-- `parseMultipleOrderNumbersFromMessage(message, maxNumber)`. -/
def parseMultipleOrderNumbersFromMessage (message : String) (maxNumber : Nat) :
    List Nat :=
  let lower := lowerStr (trimChars message.toList)
  let nums := collectNumbers maxNumber ((digitRuns lower).map natOfRun) []
  let nums := collectOrdinals lower maxNumber ordinalWords nums
  List.insertionSort (· ≤ ·) nums

/-- First ordinal word occurring in `lower` (dictionary order) whose value
is within range. -/
def findOrdinal (lower : List Char) (maxNumber : Nat) :
    List (List Char × Nat) → Option Nat
  | [] => none
  | (w, n) :: rest =>
      if hasWord lower w = true ∧ n ≤ maxNumber then some n
      else findOrdinal lower maxNumber rest

/-- Keywords of the first numeric pattern, in alternation order. -/
def patKeywords1 : List (List Char) :=
  ["order".toList, "task".toList, "item".toList, "number".toList]

/-- Keywords of the second numeric pattern, in alternation order. -/
def patKeywords2 : List (List Char) :=
  ["order".toList, "task".toList, "item".toList]

/-- Ordinal suffixes `st|nd|rd|th`, in alternation order. -/
def ordSuffixes : List (List Char) :=
  ["st".toList, "nd".toList, "rd".toList, "th".toList]

/-- Tail of the first pattern after a keyword: at least one whitespace
character, then a captured digit run. -/
def afterKeywordNumber (s : List Char) (j : Nat) : Option Nat :=
  let rest := s.drop j
  let sp := rest.takeWhile isSpaceChar
  if sp.isEmpty then none
  else
    let rest2 := rest.dropWhile isSpaceChar
    let ds := rest2.takeWhile Char.isDigit
    if ds.isEmpty then none else some (natOfRun ds)

/-- First match of `/(?:order|task|item|number)\s+(\d+)/i` on the lowered
string, returning the captured number. -/
def pat1 (s : List Char) : Option Nat :=
  (List.range (s.length + 1)).findSome? fun i =>
    patKeywords1.findSome? fun kw =>
      if kw.isPrefixOf (s.drop i) then afterKeywordNumber s (i + kw.length)
      else none

/-- First match of `/(\d+)(?:st|nd|rd|th)?\s+(?:order|task|item)/i`. -/
def pat2 (s : List Char) : Option Nat :=
  (List.range s.length).findSome? fun i =>
    let rest := s.drop i
    let ds := rest.takeWhile Char.isDigit
    if ds.isEmpty then none
    else
      let after := rest.drop ds.length
      let after2 :=
        match ordSuffixes.findSome? fun suf =>
          if suf.isPrefixOf after then some (after.drop 2) else none with
        | some a => a
        | none => after
      let sp := after2.takeWhile isSpaceChar
      if sp.isEmpty then none
      else
        let after3 := after2.dropWhile isSpaceChar
        if patKeywords2.any (fun kw => kw.isPrefixOf after3) then
          some (natOfRun ds)
        else none

/-- First match of `/\b(\d+)(?:st|nd|rd|th)\b/i`. -/
def pat3 (s : List Char) : Option Nat :=
  (List.range s.length).findSome? fun i =>
    if i ≠ 0 && isWordChar (s.getD (i - 1) ' ') then none
    else
      let rest := s.drop i
      let ds := rest.takeWhile Char.isDigit
      if ds.isEmpty then none
      else
        let after := rest.drop ds.length
        if ordSuffixes.any (fun suf => suf.isPrefixOf after) then
          let after2 := after.drop 2
          if after2.isEmpty || !(isWordChar (after2.headD ' ')) then
            some (natOfRun ds)
          else none
        else none

/-- Match of `/^(\d+)$/`: the whole string is a nonempty digit run. -/
def pat4 (s : List Char) : Option Nat :=
  if s ≠ [] ∧ s.all Char.isDigit then some (natOfRun s) else none

/-- First match of `/\b(\d+)\b/i`. -/
def pat5 (s : List Char) : Option Nat :=
  (List.range s.length).findSome? fun i =>
    if i ≠ 0 && isWordChar (s.getD (i - 1) ' ') then none
    else
      let rest := s.drop i
      let ds := rest.takeWhile Char.isDigit
      if ds.isEmpty then none
      else
        let after := rest.drop ds.length
        if after.isEmpty || !(isWordChar (after.headD ' ')) then
          some (natOfRun ds)
        else none

/-- Loop over the numeric patterns: the first pattern whose first match is
in range wins; an out-of-range match falls through to the next pattern. -/
def firstValidPattern (maxNumber : Nat) : List (Option Nat) → Option Nat
  | [] => none
  | none :: rest => firstValidPattern maxNumber rest
  | some n :: rest =>
      if 0 < n ∧ n ≤ maxNumber then some n
      else firstValidPattern maxNumber rest

/-- `parseOrderNumberFromMessage(message, maxNumber)`. -/
def parseOrderNumberFromMessage (message : String) (maxNumber : Nat) :
    Option Nat :=
  let lower := lowerStr message.toList
  match findOrdinal lower maxNumber ordinalWords with
  | some n => some n
  | none =>
      firstValidPattern maxNumber
        [pat1 lower, pat2 lower, pat3 lower, pat4 lower, pat5 lower]

/-! ## Time model

JS timestamps are integers counting milliseconds since the Unix epoch; the
model identifies local time with model time (one fixed zone, no DST). -/

def msPerMinute : Int := 60000

def msPerHour : Int := 3600000

def msPerDay : Int := 86400000

/-- Whole days elapsed since the epoch (floor). -/
def dayIndex (t : Int) : Int := Int.fdiv t msPerDay

/-- Timestamp of local midnight of the day containing `t`
(`setHours(0,0,0,0)`). -/
def startOfDay (t : Int) : Int := dayIndex t * msPerDay

/-- `Date.prototype.getDay`: 0 = Sunday; the epoch day was a Thursday. -/
def getDayOfWeek (t : Int) : Int := Int.fmod (dayIndex t + 4) 7

/-- `setHours(h, m, 0, 0)` on the day of `t`. -/
def setHM (t h m : Int) : Int := startOfDay t + h * msPerHour + m * msPerMinute

/-- Milliseconds elapsed since local midnight. -/
def timeOfDayMs (t : Int) : Int := t - startOfDay t

/-- Days since the epoch of the civil date `y-m-d` (`m` in 1..12),
normalizing day overflow linearly as JS `Date` does. -/
def daysFromCivil (y m d : Int) : Int :=
  let y1 := if m ≤ 2 then y - 1 else y
  let era := Int.fdiv y1 400
  let yoe := y1 - era * 400
  let mp := Int.fmod (m + 9) 12
  let doy := Int.fdiv (153 * mp + 2) 5 + d - 1
  let doe := yoe * 365 + Int.fdiv yoe 4 - Int.fdiv yoe 100 + doy
  era * 146097 + doe - 719468

/-- Civil date `(year, month 1..12, day)` of a day count since the epoch. -/
def civilFromDays (z0 : Int) : Int × Int × Int :=
  let z := z0 + 719468
  let era := Int.fdiv z 146097
  let doe := z - era * 146097
  let yoe :=
    Int.fdiv (doe - Int.fdiv doe 1460 + Int.fdiv doe 36524 - Int.fdiv doe 146096) 365
  let y := yoe + era * 400
  let doy := doe - (365 * yoe + Int.fdiv yoe 4 - Int.fdiv yoe 100)
  let mp := Int.fdiv (5 * doy + 2) 153
  let d := doy - Int.fdiv (153 * mp + 2) 5 + 1
  let m := if mp < 10 then mp + 3 else mp - 9
  (if m ≤ 2 then y + 1 else y, m, d)

/-- `Date.prototype.getFullYear`. -/
def getFullYear (t : Int) : Int := (civilFromDays (dayIndex t)).1

/-- `Date.prototype.getMonth` (0-indexed as in JS). -/
def getMonth (t : Int) : Int := (civilFromDays (dayIndex t)).2.1 - 1

/-- `new Date(year, month, day, hour, minute)` with JS month 0-indexed and
out-of-range month and day normalized. -/
def jsMakeDate (year month day h m : Int) : Int :=
  let y := year + Int.fdiv month 12
  let mo := Int.fmod month 12
  (daysFromCivil y (mo + 1) 1 + (day - 1)) * msPerDay + h * msPerHour + m * msPerMinute

/-- `Date.prototype.setMonth` keeping day-of-month and time of day, with
JS normalization of out-of-range values. -/
def setMonthJs (t month : Int) : Int :=
  let c := civilFromDays (dayIndex t)
  let y2 := c.1 + Int.fdiv month 12
  let mo := Int.fmod month 12
  (daysFromCivil y2 (mo + 1) 1 + (c.2.2 - 1)) * msPerDay + timeOfDayMs t

/-- `Date.prototype.setFullYear` keeping month, day-of-month and time of
day, with JS normalization. -/
def setFullYearJs (t year : Int) : Int :=
  let c := civilFromDays (dayIndex t)
  (daysFromCivil year c.2.1 1 + (c.2.2 - 1)) * msPerDay + timeOfDayMs t

/-! ## Embedded time regex and date vocabulary -/

/-- What followed the hour digits in a match of
`/(\d{1,2})\s*(pm|am|:(\d{2}))/i`. -/
inductive TimeTag where
  | pm : TimeTag
  | am : TimeTag
  | colon : Nat → TimeTag
deriving Repr, DecidableEq

/-- Attempt of the time regex at one start position, with the greedy
1-or-2-digit hour and the alternation tried in source order. -/
def timeMatchAt (s : List Char) (i : Nat) : Option (Nat × TimeTag) :=
  let rest := s.drop i
  match rest with
  | [] => none
  | c :: rest1 =>
      if c.isDigit then
        let lens := match rest1 with
          | c2 :: _ => if c2.isDigit then [2, 1] else [1]
          | [] => [1]
        lens.findSome? fun len =>
          let ds := rest.take len
          let rest2 := (rest.drop len).dropWhile isSpaceChar
          if ("pm".toList).isPrefixOf rest2 then some (natOfRun ds, TimeTag.pm)
          else if ("am".toList).isPrefixOf rest2 then some (natOfRun ds, TimeTag.am)
          else
            match rest2 with
            | ':' :: m1 :: m2 :: _ =>
                if m1.isDigit ∧ m2.isDigit then
                  some (natOfRun ds, TimeTag.colon (natOfRun [m1, m2]))
                else none
            | _ => none
      else none

/-- First match of `/(\d{1,2})\s*(pm|am|:(\d{2}))/i` on a lowered string. -/
def timeMatch (s : List Char) : Option (Nat × TimeTag) :=
  (List.range s.length).findSome? (timeMatchAt s)

/-- The hour and minute adjustments applied to a time match: `pm` adds 12
unless the hour is 12, `am` maps hour 12 to 0, `:(\d{2})` sets the minute. -/
def hourFromMatch : Nat × TimeTag → Int × Int
  | (h, TimeTag.pm) => (if h ≠ 12 then (h : Int) + 12 else 12, 0)
  | (h, TimeTag.am) => (if h = 12 then 0 else (h : Int), 0)
  | (h, TimeTag.colon mm) => ((h : Int), (mm : Int))

def monthNames : List (List Char) :=
  ["january".toList, "february".toList, "march".toList, "april".toList,
   "may".toList, "june".toList, "july".toList, "august".toList,
   "september".toList, "october".toList, "november".toList, "december".toList]

def monthAbbreviations : List (List Char) :=
  ["jan".toList, "feb".toList, "mar".toList, "apr".toList, "may".toList,
   "jun".toList, "jul".toList, "aug".toList, "sep".toList, "oct".toList,
   "nov".toList, "dec".toList]

def dayNames : List (List Char) :=
  ["sunday".toList, "monday".toList, "tuesday".toList, "wednesday".toList,
   "thursday".toList, "friday".toList, "saturday".toList]

/-- First match of `/\b(\d{1,2})\b/`: a maximal digit run of length at
most two with word boundaries on both sides. -/
def shortDigitRun (s : List Char) : Option Nat :=
  (List.range s.length).findSome? fun i =>
    if i ≠ 0 && isWordChar (s.getD (i - 1) ' ') then none
    else
      let ds := (s.drop i).takeWhile Char.isDigit
      if ds.isEmpty then none
      else if ds.length ≤ 2 then
        let after := (s.drop i).drop ds.length
        if after.isEmpty || !(isWordChar (after.headD ' ')) then
          some (natOfRun ds)
        else none
      else none

/-- `s.replace(/(\d+)(st|nd|rd|th)/g, "$1")`: drop a lowercase ordinal
suffix that immediately follows a digit. -/
def stripOrd : Bool → List Char → List Char
  | _, [] => []
  | prevDigit, c :: rest =>
      if prevDigit ∧ (ordSuffixes.any fun suf => suf.isPrefixOf (c :: rest)) then
        match rest with
        | [] => []
        | _ :: rest2 => stripOrd false rest2
      else c :: stripOrd c.isDigit rest

/-! ## Relative date parsing in `createTask` (src/unnamed/part_006)

`jsParse` stands for the engine `new Date(string)` parser, an external
collaborator; `none` models an invalid date (`isNaN(getTime())`). -/

/-- The due-date parsing pipeline of `createTask`. -/
def parseTaskDueDate (jsParse : List Char → Option Int) (now : Int)
    (dueDate : String) : Option Int :=
  let cs := dueDate.toList
  let lowerDueDate := lowerStr (trimChars cs)
  if lowerDueDate = "tomorrow".toList then some (now + msPerDay)
  else if containsSub lowerDueDate "next week".toList then
    some (now + 7 * msPerDay)
  else if containsSub lowerDueDate "next month".toList then
    some (setMonthJs now (getMonth now + 1))
  else
    match dayNames.findIdx? (fun nm => containsSub lowerDueDate nm) with
    | some targetDayIndex =>
        let isNext := containsSub lowerDueDate "next".toList
          || containsSub lowerDueDate "coming".toList
        let isThis := containsSub lowerDueDate "this".toList
        let currentDay := getDayOfWeek now
        let base := (targetDayIndex : Int) - currentDay
        let daysToAdd :=
          if isNext then (if base ≤ 0 then base + 7 else base)
          else if isThis then (if base < 0 then base + 7 else base)
          else (if base ≤ 0 then base + 7 else base)
        let shifted := now + daysToAdd * msPerDay
        match timeMatch lowerDueDate with
        | some tm => some (setHM shifted (hourFromMatch tm).1 (hourFromMatch tm).2)
        | none => some (startOfDay shifted)
    | none =>
        let dateStr := stripOrd false cs
        match jsParse dateStr with
        | some t => some t
        | none =>
            let lowerS := lowerStr dateStr
            let day? := shortDigitRun dateStr
            let month? :=
              match monthNames.findIdx? (fun nm => containsSub lowerS nm) with
              | some m => some m
              | none => monthAbbreviations.findIdx? (fun ab => hasWord lowerS ab)
            let hm := ((timeMatch lowerS).map hourFromMatch).getD (0, 0)
            let year := getFullYear now
            match day?, month? with
            | some d, none =>
                let month := getMonth now
                let cand := jsMakeDate year month (d : Int) hm.1 hm.2
                some (if cand < now then setMonthJs cand (month + 1) else cand)
            | some d, some m =>
                let cand := jsMakeDate year (m : Int) (d : Int) hm.1 hm.2
                some (if cand < now then setFullYearJs cand (year + 1) else cand)
            | none, _ => jsParse dateStr

/-! ## Fulfillment date parsing in `createOrder` (src/unnamed/part_006) -/

/-- The fallback fulfillment-date parser of `createOrder`, tried when
`parseDateTime` returns null; the day-name branch always resets the time
to the start of the day, and the manual branch parses no time of day. -/
def orderFallbackParse (jsParse : List Char → Option Int) (now : Int)
    (fulfillmentDate : String) : Option Int :=
  let cs := fulfillmentDate.toList
  let lowerDate := lowerStr (trimChars cs)
  if lowerDate = "tomorrow".toList then some (now + msPerDay)
  else if containsSub lowerDate "next week".toList then
    some (now + 7 * msPerDay)
  else if containsSub lowerDate "next month".toList then
    some (setMonthJs now (getMonth now + 1))
  else
    match dayNames.findIdx? (fun nm => containsSub lowerDate nm) with
    | some targetDayIndex =>
        let isNext := containsSub lowerDate "next".toList
          || containsSub lowerDate "coming".toList
        let isThis := containsSub lowerDate "this".toList
        let currentDay := getDayOfWeek now
        let base := (targetDayIndex : Int) - currentDay
        let daysToAdd :=
          if isNext then (if base ≤ 0 then base + 7 else base)
          else if isThis then (if base < 0 then base + 7 else base)
          else (if base ≤ 0 then base + 7 else base)
        some (startOfDay (now + daysToAdd * msPerDay))
    | none =>
        let dateStr := stripOrd false cs
        match jsParse dateStr with
        | some t => some t
        | none =>
            let lowerS := lowerStr dateStr
            let day? := shortDigitRun dateStr
            let month? :=
              match monthNames.findIdx? (fun nm => containsSub lowerS nm) with
              | some m => some m
              | none => monthAbbreviations.findIdx? (fun ab => hasWord lowerS ab)
            let year := getFullYear now
            match day?, month? with
            | some d, none =>
                let month := getMonth now
                let cand := jsMakeDate year month (d : Int) 0 0
                some (if cand < now then setMonthJs cand (month + 1) else cand)
            | some d, some m =>
                let cand := jsMakeDate year (m : Int) (d : Int) 0 0
                some (if cand < now then setFullYearJs cand (year + 1) else cand)
            | none, _ => none

/-- Modelled from the spec: the implementation of `parseDateTime` in
`lib/date-utils.ts` is missing from the sources (only its callers and
its import sites are present). Per the spec it interprets "tomorrow",
"next week/month" and weekday names with this/next/coming qualifiers
(next occurrence on or after today), reads an embedded 12/24-hour
time-of-day, defaults time-only phrases to today, and returns null when
nothing applies. -/
def parseDateTimeSpec (now : Int) (s : String) : Option Int :=
  let lower := lowerStr (trimChars s.toList)
  let time? := (timeMatch lower).map hourFromMatch
  let withTime := fun (base : Int) =>
    match time? with
    | some hm => base + hm.1 * msPerHour + hm.2 * msPerMinute
    | none => base
  if containsSub lower "tomorrow".toList then
    some (withTime (startOfDay now + msPerDay))
  else if containsSub lower "next week".toList then some (now + 7 * msPerDay)
  else if containsSub lower "next month".toList then
    some (setMonthJs now (getMonth now + 1))
  else
    match dayNames.findIdx? (fun nm => containsSub lower nm) with
    | some idx =>
        let currentDay := getDayOfWeek now
        let base := (idx : Int) - currentDay
        let qualifiedNext := containsSub lower "next".toList
          || containsSub lower "coming".toList
        let daysToAdd :=
          if qualifiedNext then (if base ≤ 0 then base + 7 else base)
          else (if base < 0 then base + 7 else base)
        some (withTime (startOfDay now + daysToAdd * msPerDay))
    | none =>
        match time? with
        | some hm => some (startOfDay now + hm.1 * msPerHour + hm.2 * msPerMinute)
        | none => none

/-- JS truthiness of an optional string (`undefined` and `""` are falsy). -/
def strTruthy : Option String → Bool
  | none => false
  | some s => s ≠ ""

/-- The fulfillment date stored by `createOrder`: `parseDateTime` first,
then the fallback parser, and otherwise the creation time plus 5 hours. -/
def resolveOrderFulfillment (jsParse : List Char → Option Int) (now : Int)
    (fulfillmentDate : Option String) : Int :=
  let parsed : Option Int :=
    if strTruthy fulfillmentDate then
      match fulfillmentDate with
      | none => none
      | some s =>
          match parseDateTimeSpec now s with
          | some t => some t
          | none => orderFallbackParse jsParse now s
    else none
  match parsed with
  | some t => t
  | none => now + 5 * msPerHour

/-! ## Data model

Rows of the five tables used by the dialogue core. JSON objects become
records of optional fields, JSONB maps become association lists. -/

structure Task where
  id : Nat
  userNumber : String
  title : String
  description : Option String
  dueDate : Option Int
  status : String
  originalMessage : Option String
  createdAt : Int
deriving Repr, DecidableEq

structure Order where
  id : Nat
  userNumber : String
  orderId : Option String
  productName : String
  quantity : Int
  status : String
  fulfillmentDate : Option Int
  originalMessage : Option String
  createdAt : Int
deriving Repr, DecidableEq

/-- The `updates` JSONB payload of a pending confirmation. A task update
serializes status, title, description and a due date (the inner option of
`dueDate` models an explicit null); a duplicate-order payload carries
`action = "create_duplicate"`, the product fields, and the original
free-text fulfillment-date string. -/
structure UpdatesJson where
  action : Option String := none
  productName : Option String := none
  quantity : Option Int := none
  fulfillmentDate : Option String := none
  status : Option String := none
  title : Option String := none
  description : Option String := none
  dueDate : Option (Option Int) := none
deriving Repr, DecidableEq

structure PendingConfirmation where
  id : Nat
  userNumber : String
  taskId : Option Nat
  orderId : Option String
  updates : UpdatesJson
  originalMessage : Option String
  createdAt : Int
  expiresAt : Int
deriving Repr, DecidableEq

structure Filters where
  status : Option String := none
  dateRange : Option String := none
  limit : Option Nat := none
  offset : Option Nat := none
deriving Repr, DecidableEq

structure PaginationState where
  id : Nat
  userNumber : String
  entityType : String
  offsetCount : Nat
  totalCount : Nat
  filters : Filters
  createdAt : Int
  expiresAt : Int
deriving Repr, DecidableEq

/-- A `user_message_context` row (one per user, upsert on the user key). -/
structure UserContextRow where
  userNumber : String
  entityType : Option String
  orderIds : List String
  taskIds : List Nat
  orderMappings : List (String × String)
  taskMappings : List (String × Nat)
  createdAt : Int
deriving Repr, DecidableEq

/-- The reply context assembled by `loadMessageContext`. -/
structure MessageContext where
  entityType : Option String
  orderIds : List String
  taskIds : List Nat
  orderMappings : List (String × String)
  taskMappings : List (String × Nat)
deriving Repr, DecidableEq

/-- The persistent store. `nextId` models the serial id sequences; the
`orderItems` triples are `(order row id, product name, quantity)`. -/
structure Db where
  tasks : List Task
  orders : List Order
  pendingConfirmations : List PendingConfirmation
  paginationStates : List PaginationState
  contexts : List UserContextRow
  orderItems : List (Nat × String × Int)
  nextId : Nat
deriving Repr, DecidableEq

/-- JSON object field access on an association list. -/
def lookupKey {α : Type} (m : List (String × α)) (k : String) : Option α :=
  (m.find? (fun p => p.1 = k)).map Prod.snd

/-- Decimal digit character. -/
def digitChar10 : Nat → Char
  | 0 => '0' | 1 => '1' | 2 => '2' | 3 => '3' | 4 => '4'
  | 5 => '5' | 6 => '6' | 7 => '7' | 8 => '8' | _ => '9'

/-- Decimal digits with structural fuel (any fuel above the digit count
gives the digits, most significant first). -/
def natKeyCharsAux : Nat → Nat → List Char
  | 0, _ => []
  | fuel + 1, n =>
      if n < 10 then [digitChar10 n]
      else natKeyCharsAux fuel (n / 10) ++ [digitChar10 (n % 10)]

/-- Decimal digits of a number, most significant first. -/
def natKeyChars (n : Nat) : List Char := natKeyCharsAux (n + 1) n

/-- The JS `Number.prototype.toString` conversion used to build and look
up the 1-based position keys of the JSONB mapping objects. -/
def natKey (n : Nat) : String := ⟨natKeyChars n⟩

/-- The `forEach` loops building a position mapping: entry `i` (0-based)
gets the key `String(off + i + 1)` and the projected value. -/
def buildMappings {α β : Type} (f : α → β) (off : Nat) : List α → List (String × β)
  | [] => []
  | x :: xs => (natKey (off + 1), f x) :: buildMappings f (off + 1) xs

/-- Items array produced by the classifier for multi-product orders. -/
structure OrderItem where
  productName : String
  quantity : Int
deriving Repr, DecidableEq

/-- The parameter bag of an `Analysis` (untrusted classifier output). -/
structure Params where
  title : Option String := none
  description : Option String := none
  dueDate : Option String := none
  orderId : Option String := none
  productName : Option String := none
  quantity : Option Int := none
  items : Option (List OrderItem) := none
  fulfillmentDate : Option String := none
  status : Option String := none
  taskId : Option Nat := none
  dateRange : Option String := none
  isBulkUpdate : Bool := false
deriving Repr, DecidableEq

/-- Classifier output, already validated to the four intents. -/
structure Analysis where
  intent : String
  entityType : Option String
  parameters : Params
deriving Repr, DecidableEq

/-- Result of the external task-matching capability. -/
structure TaskMatch where
  taskId : Nat
deriving Repr, DecidableEq

structure TaskMatchResult where
  bestMatch : Option TaskMatch
  allMatches : List TaskMatch
  needsConfirmation : Bool
deriving Repr, DecidableEq

/-- Structured outcome consumed by the response formatter. Fixed replies
keep their literal text; interpolated replies keep their data. -/
inductive Msg where
  | text : String → Msg
  | taskPage : List Task → Nat → Nat → Msg
  | orderPage : List Order → Nat → Nat → Msg
  | createTaskOk : Task → Msg
  | createOrderOk : Order → Msg
  | updateTaskOk : Task → Msg
  | updateOrderOk : Order → Msg
  | updatedOrdersCount : Nat → String → Msg
  | updatedTasksCount : Nat → Option String → Msg
  | orderDetails : Order → Msg
  | orderNotFound : String → Msg
  | duplicateOrderPrompt : Order → Msg
  | confirmTaskPrompt : Task → Nat → Msg
  | askConfirmAgain : Task → Msg
  | unknownIntentHelp : Msg
  | hi : Msg
deriving Repr, DecidableEq

/-- The static pagination terminal message, verbatim. -/
def noMoreItemsText : String :=
  "No more items to show. Please request your tasks or orders again."

/-! ## `parseDateRange` (src/apps/web/lib/date-utils.ts) -/

def endOfDayOffset : Int := 23 * msPerHour + 59 * msPerMinute + 59999

/-- `parseDateRange(dateRange)` relative to `now`. -/
def parseDateRange (now : Int) (dateRange : String) : Option Int × Option Int :=
  let lowerRange := lowerStr (trimChars dateRange.toList)
  let startOfToday := startOfDay now
  if lowerRange = "today".toList then
    (some startOfToday, some (startOfToday + endOfDayOffset))
  else if lowerRange = "yesterday".toList then
    (some (startOfToday - msPerDay), some (startOfToday - msPerDay + endOfDayOffset))
  else if lowerRange = "this week".toList then
    let dow := getDayOfWeek now
    let daysToMonday := if dow = 0 then 6 else dow - 1
    let startOfWeek := startOfToday - daysToMonday * msPerDay
    (some startOfWeek, some (startOfWeek + 6 * msPerDay + endOfDayOffset))
  else if lowerRange = "last week".toList then
    let dow := getDayOfWeek now
    let daysToMonday := if dow = 0 then 6 else dow - 1
    let startOfWeek := startOfToday - (daysToMonday + 7) * msPerDay
    (some startOfWeek, some (startOfWeek + 6 * msPerDay + endOfDayOffset))
  else if lowerRange = "this month".toList then
    let y := getFullYear now
    let m := getMonth now
    (some (jsMakeDate y m 1 0 0), some (jsMakeDate y (m + 1) 0 0 0 + endOfDayOffset))
  else if lowerRange = "last month".toList then
    let y := getFullYear now
    let m := getMonth now
    (some (jsMakeDate y (m - 1) 1 0 0), some (jsMakeDate y m 0 0 0 + endOfDayOffset))
  else if lowerRange = "this year".toList then
    let y := getFullYear now
    (some (jsMakeDate y 0 1 0 0), some (jsMakeDate y 11 31 0 0 + endOfDayOffset))
  else (none, none)

/-! ## Repository operations (src/unnamed/part_006) -/

/-- `ORDER BY due_date ASC NULLS LAST, created_at DESC` as a total
boolean preorder. -/
def taskLe (a b : Task) : Bool :=
  match a.dueDate, b.dueDate with
  | none, none => b.createdAt ≤ a.createdAt
  | none, some _ => false
  | some _, none => true
  | some x, some y => if x = y then b.createdAt ≤ a.createdAt else x ≤ y

/-- `ORDER BY fulfillment_date ASC NULLS LAST, created_at DESC`. -/
def orderLe (a b : Order) : Bool :=
  match a.fulfillmentDate, b.fulfillmentDate with
  | none, none => b.createdAt ≤ a.createdAt
  | none, some _ => false
  | some _, none => true
  | some x, some y => if x = y then b.createdAt ≤ a.createdAt else x ≤ y

/-- SQL date-range condition on a nullable timestamp column: a NULL value
never satisfies the comparison. -/
def inDateRange (now : Int) (dateRange : String) (v : Option Int) : Bool :=
  match parseDateRange now dateRange with
  | (some s, some e) => match v with
    | some d => s ≤ d ∧ d ≤ e
    | none => false
  | _ => true

/-- `getTasks(userNumber, filters)`: filtered rows of the requested page
together with the total count under the same filters. -/
def getTasks (now : Int) (db : Db) (userNumber : String) (f : Filters) :
    List Task × Nat :=
  let matching := db.tasks.filter fun t =>
    (t.userNumber == userNumber)
    && (match f.status with | none => true | some st => t.status == st)
    && (match f.dateRange with
        | none => true
        | some dr => inDateRange now dr t.dueDate)
  let sorted := List.insertionSort (fun a b => taskLe a b = true) matching
  let off := f.offset.getD 0
  let lim := match f.limit with
    | some l => if l = 0 then 5 else l
    | none => 5
  ((sorted.drop off).take lim, matching.length)

/-- `getOrders(userNumber, filters)`. -/
def getOrders (now : Int) (db : Db) (userNumber : String) (f : Filters) :
    List Order × Nat :=
  let matching := db.orders.filter fun o =>
    (o.userNumber == userNumber)
    && (match f.status with | none => true | some st => o.status == st)
    && (match f.dateRange with
        | none => true
        | some dr => inDateRange now dr o.fulfillmentDate)
  let sorted := List.insertionSort (fun a b => orderLe a b = true) matching
  let off := f.offset.getD 0
  let lim := match f.limit with
    | some l => if l = 0 then 5 else l
    | none => 5
  ((sorted.drop off).take lim, matching.length)

/-- `getOrderByOrderId(userNumber, orderId)` (the attached media lookup is
outside the modeled state). -/
def getOrderByOrderId (db : Db) (userNumber orderId : String) : Option Order :=
  db.orders.find? fun o => o.userNumber = userNumber ∧ o.orderId = some orderId

/-- `createTask`: parses the due date and inserts a pending task row. -/
def createTaskDb (jsParse : List Char → Option Int) (now : Int) (db : Db)
    (userNumber title : String) (description : Option String)
    (dueDate : Option String) (originalMessage : Option String) : Task × Db :=
  let parsedDueDate := match dueDate with
    | some s => if s ≠ "" then parseTaskDueDate jsParse now s else none
    | none => none
  let task : Task :=
    { id := db.nextId, userNumber := userNumber, title := title,
      description := if strTruthy description then description else none,
      dueDate := parsedDueDate, status := "pending",
      originalMessage := if strTruthy originalMessage then originalMessage else none,
      createdAt := now }
  (task, { db with tasks := db.tasks ++ [task], nextId := db.nextId + 1 })

/-- The generated order id; the serial stands in for the random suffix of
`ORD-$\x7bDate.now()\x7d-$\x7brandom\x7d`. -/
def genOrderId (now : Int) (db : Db) : String :=
  "ORD-" ++ toString now ++ "-" ++ toString db.nextId

/-- `createOrder`: resolves the order id, aggregates items, parses the
fulfillment date (defaulting to now plus 5 hours) and inserts a pending
order row plus its `order_items` rows. -/
def createOrderDb (jsParse : List Char → Option Int) (now : Int) (db : Db)
    (userNumber productName : String) (quantity : Int)
    (orderId? : Option String) (fulfillmentDate : Option String)
    (originalMessage : Option String) (items : Option (List OrderItem)) :
    Order × Db :=
  let finalOrderId := match orderId? with
    | some oid => if oid ≠ "" then oid else genOrderId now db
    | none => genOrderId now db
  let hasItems : Bool := match items with | some l => !l.isEmpty | none => false
  let mainProductName :=
    if hasItems then
      String.intercalate ", "
        ((items.getD []).map fun it => it.productName ++ " x" ++ toString it.quantity)
    else productName
  let totalQuantity :=
    if hasItems then (items.getD []).foldl (fun s it => s + it.quantity) 0
    else quantity
  let fd := resolveOrderFulfillment jsParse now fulfillmentDate
  let order : Order :=
    { id := db.nextId, userNumber := userNumber, orderId := some finalOrderId,
      productName := mainProductName, quantity := totalQuantity,
      status := "pending", fulfillmentDate := some fd,
      originalMessage := if strTruthy originalMessage then originalMessage else none,
      createdAt := now }
  let itemRows :=
    if hasItems then (items.getD []).map fun it => (order.id, it.productName, it.quantity)
    else [(order.id, productName, quantity)]
  (order, { db with orders := db.orders ++ [order],
                    orderItems := db.orderItems ++ itemRows,
                    nextId := db.nextId + 1 })

/-- Field-wise application of an update payload to a task row. -/
def applyTaskUpdates (u : UpdatesJson) (t : Task) : Task :=
  { t with
    title := u.title.getD t.title,
    description := match u.description with
      | some d => some d
      | none => t.description,
    dueDate := match u.dueDate with
      | some dd => dd
      | none => t.dueDate,
    status := u.status.getD t.status }

/-- `updateTask(taskId, updates)`: `none` models the thrown not-found
error. -/
def updateTask (db : Db) (taskId : Nat) (u : UpdatesJson) :
    Option (Task × Db) :=
  match db.tasks.find? (fun t => t.id = taskId) with
  | none => none
  | some t =>
      let t2 := applyTaskUpdates u t
      some (t2, { db with tasks := db.tasks.map (fun x => if x.id = taskId then t2 else x) })

/-- Field-wise application of an update payload to an order row. -/
def applyOrderUpdates (u : UpdatesJson) (o : Order) : Order :=
  { o with
    productName := u.productName.getD o.productName,
    quantity := u.quantity.getD o.quantity,
    status := u.status.getD o.status }

/-- `updateOrder(orderId, updates)` keyed on the `order_id` column;
`none` models the thrown not-found error. -/
def updateOrder (db : Db) (orderId : String) (u : UpdatesJson) :
    Option (Order × Db) :=
  match db.orders.find? (fun o => o.orderId = some orderId) with
  | none => none
  | some o =>
      let o2 := applyOrderUpdates u o
      some (o2, { db with orders := db.orders.map (fun x =>
        if x.orderId = some orderId then o2 else x) })

/-! ## Conversational state store -/

/-- `SELECT * FROM pending_confirmations WHERE user_number = $1 AND
expires_at > CURRENT_TIMESTAMP ORDER BY created_at DESC LIMIT 1`. -/
def latestLiveConfirmation (now : Int) (db : Db) (userNumber : String) :
    Option PendingConfirmation :=
  (db.pendingConfirmations.filter
      (fun p => p.userNumber = userNumber ∧ now < p.expiresAt)).foldl
    (fun best p => match best with
      | none => some p
      | some b => if b.createdAt < p.createdAt then some p else some b) none

/-- The analogous live-cursor query on `pagination_state`. -/
def latestLiveCursor (now : Int) (db : Db) (userNumber : String) :
    Option PaginationState :=
  (db.paginationStates.filter
      (fun p => p.userNumber = userNumber ∧ now < p.expiresAt)).foldl
    (fun best p => match best with
      | none => some p
      | some b => if b.createdAt < p.createdAt then some p else some b) none

/-- `DELETE FROM pending_confirmations WHERE id = $1`. -/
def deleteConfirmation (db : Db) (cid : Nat) : Db :=
  { db with pendingConfirmations :=
      db.pendingConfirmations.filter (fun p => decide (p.id ≠ cid)) }

/-- `DELETE FROM pagination_state WHERE id = $1`. -/
def deleteCursor (db : Db) (pid : Nat) : Db :=
  let kept := db.paginationStates.filter (fun p => decide (p.id ≠ pid))
  { db with paginationStates := kept }

/-- `DELETE FROM pagination_state WHERE user_number AND entity_type`. -/
def deleteCursorFor (db : Db) (userNumber entityType : String) : Db :=
  let kept := db.paginationStates.filter
    (fun p => decide (¬(p.userNumber = userNumber ∧ p.entityType = entityType)))
  { db with paginationStates := kept }

/-- Fresh `pagination_state` row; `expires_at` takes the schema default of
ten minutes. -/
def insertCursor (now : Int) (db : Db) (userNumber entityType : String)
    (offsetCount totalCount : Nat) (filters : Filters) : Db :=
  let row : PaginationState :=
    { id := db.nextId, userNumber := userNumber, entityType := entityType,
      offsetCount := offsetCount, totalCount := totalCount, filters := filters,
      createdAt := now, expiresAt := now + 10 * msPerMinute }
  { db with paginationStates := db.paginationStates ++ [row],
            nextId := db.nextId + 1 }

/-- `UPDATE pagination_state SET offset_count, expires_at = now + 10
minutes WHERE id`. -/
def advanceCursor (now : Int) (db : Db) (pid : Nat) (newOffset : Nat) : Db :=
  { db with paginationStates := db.paginationStates.map (fun p =>
      if p.id = pid then
        { p with offsetCount := newOffset, expiresAt := now + 10 * msPerMinute }
      else p) }

/-- Context upsert performed after an order list render: only the order
fields, the entity type and the creation time are written. -/
def upsertContextOrders (now : Int) (db : Db) (userNumber : String)
    (orderIds : List String) (orderMappings : List (String × String)) : Db :=
  match db.contexts.find? (fun c => c.userNumber = userNumber) with
  | some _ =>
      { db with contexts := db.contexts.map (fun c =>
          if c.userNumber = userNumber then
            { c with entityType := some "order", orderIds := orderIds,
                     orderMappings := orderMappings, createdAt := now }
          else c) }
  | none =>
      { db with contexts := db.contexts ++
          [{ userNumber := userNumber, entityType := some "order",
             orderIds := orderIds, taskIds := [],
             orderMappings := orderMappings, taskMappings := [],
             createdAt := now }] }

/-- Context upsert performed after a task list render. -/
def upsertContextTasks (now : Int) (db : Db) (userNumber : String)
    (taskIds : List Nat) (taskMappings : List (String × Nat)) : Db :=
  match db.contexts.find? (fun c => c.userNumber = userNumber) with
  | some _ =>
      { db with contexts := db.contexts.map (fun c =>
          if c.userNumber = userNumber then
            { c with entityType := some "task", taskIds := taskIds,
                     taskMappings := taskMappings, createdAt := now }
          else c) }
  | none =>
      { db with contexts := db.contexts ++
          [{ userNumber := userNumber, entityType := some "task",
             orderIds := [], taskIds := taskIds,
             orderMappings := [], taskMappings := taskMappings,
             createdAt := now }] }

/-- Duplicate-order confirmation upsert of `handleCreate` (10-minute TTL,
`task_id` left untouched on conflict). -/
def upsertDupConfirmation (now : Int) (db : Db) (userNumber : String)
    (orderId : Option String) (updates : UpdatesJson)
    (originalMessage : String) : Db :=
  match db.pendingConfirmations.find? (fun p => p.userNumber = userNumber) with
  | some _ =>
      { db with pendingConfirmations := db.pendingConfirmations.map (fun p =>
          if p.userNumber = userNumber then
            { p with orderId := orderId, updates := updates,
                     originalMessage := some originalMessage,
                     expiresAt := now + 10 * msPerMinute }
          else p) }
  | none =>
      let row : PendingConfirmation :=
        { id := db.nextId, userNumber := userNumber, taskId := none,
          orderId := orderId, updates := updates,
          originalMessage := some originalMessage, createdAt := now,
          expiresAt := now + 10 * msPerMinute }
      { db with pendingConfirmations := db.pendingConfirmations ++ [row],
                nextId := db.nextId + 1 }

/-- Plain `INSERT INTO pending_confirmations (user_number, task_id,
updates, original_message)` of the update handler: `none` models the
unique-key violation thrown when a row for the user already exists;
`expires_at` takes the schema default of one hour. -/
def insertTaskConfirmation (now : Int) (db : Db) (userNumber : String)
    (taskId : Nat) (updates : UpdatesJson) (originalMessage : String) :
    Option Db :=
  match db.pendingConfirmations.find? (fun p => p.userNumber = userNumber) with
  | some _ => none
  | none =>
      let row : PendingConfirmation :=
        { id := db.nextId, userNumber := userNumber, taskId := some taskId,
          orderId := none, updates := updates,
          originalMessage := some originalMessage, createdAt := now,
          expiresAt := now + 60 * msPerMinute }
      some { db with pendingConfirmations := db.pendingConfirmations ++ [row],
                     nextId := db.nextId + 1 }

/-! ## Pagination handler (src/apps/web/lib/actions/pagination-handler.ts)

The third component of each result counts the repository page fetches the
stage performed. -/

/-- Display id of an order: `o.order_id || o.id.toString()`. -/
def orderDisplayId (o : Order) : String :=
  match o.orderId with
  | some s => if s ≠ "" then s else toString o.id
  | none => toString o.id

/-- The pagination trigger test on the trimmed lower-cased body. -/
def isNextBody (messageBody : List Char) : Bool :=
  messageBody = "next".toList || messageBody = "more".toList
  || ("next".toList).isPrefixOf messageBody

def handleTaskPagination (now : Int) (db : Db) (userNumber : String)
    (filters : Filters) (newOffset : Nat) (paginationId : Nat) :
    Msg × Db × Nat :=
  let res := getTasks now db userNumber
    { filters with offset := some newOffset, limit := some 5 }
  let tasks := res.1
  let total := res.2
  if ¬tasks.isEmpty then
    let taskIds := tasks.map (·.id)
    let taskMappings := buildMappings Task.id newOffset tasks
    let db2 := upsertContextTasks now db userNumber taskIds taskMappings
    let db3 :=
      if total > newOffset + tasks.length then advanceCursor now db2 paginationId newOffset
      else deleteCursor db2 paginationId
    (Msg.taskPage tasks total newOffset, db3, 1)
  else (Msg.text "No more tasks to show.", deleteCursor db paginationId, 1)

def handleOrderPagination (now : Int) (db : Db) (userNumber : String)
    (filters : Filters) (newOffset : Nat) (paginationId : Nat) :
    Msg × Db × Nat :=
  let res := getOrders now db userNumber
    { filters with offset := some newOffset, limit := some 5 }
  let orders := res.1
  let total := res.2
  if ¬orders.isEmpty then
    let orderIds := orders.map orderDisplayId
    let orderMappings := buildMappings orderDisplayId newOffset orders
    let db2 := upsertContextOrders now db userNumber orderIds orderMappings
    let db3 :=
      if total > newOffset + orders.length then advanceCursor now db2 paginationId newOffset
      else deleteCursor db2 paginationId
    (Msg.orderPage orders total newOffset, db3, 1)
  else (Msg.text "No more orders to show.", deleteCursor db paginationId, 1)

/-- `handlePagination(userNumber, messageBody)`. -/
def handlePagination (now : Int) (db : Db) (userNumber : String)
    (messageBody : List Char) : Option (Msg × Db × Nat) :=
  if ¬ isNextBody messageBody then none
  else
    match latestLiveCursor now db userNumber with
    | none => some (Msg.text noMoreItemsText, db, 0)
    | some pagination =>
        let newOffset := pagination.offsetCount + 5
        if pagination.entityType = "task" then
          some (handleTaskPagination now db userNumber pagination.filters newOffset pagination.id)
        else if pagination.entityType = "order" then
          some (handleOrderPagination now db userNumber pagination.filters newOffset pagination.id)
        else
          some (Msg.text "No pagination state found. Please request your tasks or orders again.",
                deleteCursor db pagination.id, 0)

/-! ## Confirmation handler (src/apps/web/lib/actions/confirmation-handler.ts) -/

def isYesBody (b : List Char) : Bool :=
  b = "yes".toList || b = "y".toList || ("yes".toList).isPrefixOf b
  || b = "confirm".toList

def isNoBody (b : List Char) : Bool :=
  b = "no".toList || b = "n".toList || ("no".toList).isPrefixOf b
  || b = "cancel".toList

def isNewBody (b : List Char) : Bool :=
  b = "new".toList || ("new".toList).isPrefixOf b

def isUpdateBody (b : List Char) : Bool :=
  b = "update".toList || ("update".toList).isPrefixOf b

/-- `handleConfirmation(userNumber, messageBody)`; `none` means the stage
declines the message. The unreachable repository-failure catch arms are
not modeled (queries in the model always succeed). -/
def handleConfirmation (jsParse : List Char → Option Int) (now : Int)
    (db : Db) (userNumber : String) (messageBody : List Char) :
    Option (Msg × Db) :=
  match latestLiveConfirmation now db userNumber with
  | none => none
  | some pending =>
      let updates := pending.updates
      if updates.action = some "create_duplicate" ∧ strTruthy pending.orderId then
        if isNewBody messageBody then
          let r := createOrderDb jsParse now db userNumber
            (updates.productName.getD "") (updates.quantity.getD 1) none
            updates.fulfillmentDate pending.originalMessage none
          some (Msg.createOrderOk r.1, deleteConfirmation r.2 pending.id)
        else if isUpdateBody messageBody then
          let updateData : UpdatesJson :=
            { productName := if strTruthy updates.productName then updates.productName else none,
              quantity := updates.quantity }
          match updateOrder db (pending.orderId.getD "") updateData with
          | some r => some (Msg.updateOrderOk r.1, deleteConfirmation r.2 pending.id)
          | none =>
              some (Msg.text "I\x27m sorry, I couldn\x27t update that order. Please try again.",
                    deleteConfirmation db pending.id)
        else if isNoBody messageBody then
          some (Msg.text "Order creation cancelled. How else can I help you?",
                deleteConfirmation db pending.id)
        else
          some (Msg.text "Please reply \x27new\x27 for a new order or \x27update\x27 to modify the existing one.",
                db)
      else if pending.taskId.isSome then
        let tid := pending.taskId.getD 0
        if isYesBody messageBody then
          match updateTask db tid updates with
          | some r => some (Msg.updateTaskOk r.1, deleteConfirmation r.2 pending.id)
          | none =>
              some (Msg.text "I\x27m sorry, I couldn\x27t update that task. Please try again.",
                    deleteConfirmation db pending.id)
        else if isNoBody messageBody then
          some (Msg.text "Update cancelled. How else can I help you?",
                deleteConfirmation db pending.id)
        else
          match db.tasks.find? (fun t => t.id = tid) with
          | some task => some (Msg.askConfirmAgain task, db)
          | none =>
              some (Msg.text "The pending update has expired. Please try again.",
                    deleteConfirmation db pending.id)
      else none

/-! ## Create handler (src/apps/web/lib/actions/create-handler.ts) -/

/-- `items && Array.isArray(items) && items.length > 0`. -/
def hasMultipleItems (p : Params) : Bool :=
  match p.items with
  | some l => !l.isEmpty
  | none => false

/-- The product name of a create request: the joined item descriptions
for a multi-item request, else `parameters.productName` with its default. -/
def requestProductName (p : Params) : String :=
  if hasMultipleItems p then
    String.intercalate ", " ((p.items.getD []).map fun it =>
      (if it.productName ≠ "" then it.productName else "Unknown") ++ " x" ++
      toString (if it.quantity = 0 then 1 else it.quantity))
  else if strTruthy p.productName then p.productName.getD ""
  else "Unknown Product"

/-- The quantity of a create request: summed item quantities for a
multi-item request, else `parameters.quantity || 1`. -/
def requestQuantity (p : Params) : Int :=
  if hasMultipleItems p then
    (p.items.getD []).foldl (fun s it => s + (if it.quantity = 0 then 1 else it.quantity)) 0
  else match p.quantity with
    | some q => if q = 0 then 1 else q
    | none => 1

/-- `handleCreate(userNumber, analysis, body)`. -/
def handleCreate (jsParse : List Char → Option Int) (now : Int) (db : Db)
    (userNumber : String) (analysis : Analysis) (body : String) : Msg × Db :=
  if analysis.entityType = some "task" ∨ analysis.entityType = some "reminder" then
    let r := createTaskDb jsParse now db userNumber
      (if strTruthy analysis.parameters.title then analysis.parameters.title.getD ""
       else "Untitled Task")
      analysis.parameters.description analysis.parameters.dueDate (some body)
    (Msg.createTaskOk r.1, r.2)
  else if analysis.entityType = some "order" ∨ analysis.entityType = some "product" then
    let items := analysis.parameters.items
    let productName := requestProductName analysis.parameters
    let quantity := requestQuantity analysis.parameters
    let fulfillmentDate := analysis.parameters.fulfillmentDate
    let gate : Option Order :=
      if strTruthy fulfillmentDate then
        match parseDateTimeSpec now (fulfillmentDate.getD "") with
        | some parsedFulfillmentDate =>
            let existing := (getOrders now db userNumber
              { status := some "pending", limit := some 100 }).1
            (existing.filter fun o =>
              (lowerStr o.productName.toList == lowerStr productName.toList)
              && (o.quantity == quantity)
              && (match o.fulfillmentDate with
                  | none => false
                  | some od => decide ((od - parsedFulfillmentDate).natAbs < 60000))).head?
        | none => none
      else none
    match gate with
    | some dup =>
        let updates : UpdatesJson :=
          { productName := some productName, quantity := some quantity,
            fulfillmentDate := fulfillmentDate, action := some "create_duplicate" }
        (Msg.duplicateOrderPrompt dup,
         upsertDupConfirmation now db userNumber dup.orderId updates body)
    | none =>
        let r := createOrderDb jsParse now db userNumber productName quantity none
          fulfillmentDate (some body)
          (if hasMultipleItems analysis.parameters then items else none)
        (Msg.createOrderOk r.1, r.2)
  else (Msg.text "I can help you create tasks or orders. What would you like to create?", db)

/-! ## Get handler (src/unnamed/part_010) -/

/-- `handleGet(userNumber, analysis, body)`. -/
def handleGet (now : Int) (db : Db) (userNumber : String) (analysis : Analysis) :
    Msg × Db :=
  if analysis.entityType = some "task" ∨ analysis.entityType = some "reminder" then
    let dr := if strTruthy analysis.parameters.dateRange then
      analysis.parameters.dateRange else none
    let filters : Filters := { limit := some 5, dateRange := dr }
    let res := getTasks now db userNumber filters
    let tasks := res.1
    let total := res.2
    let db2 :=
      if total > tasks.length then
        insertCursor now (deleteCursorFor db userNumber "task") userNumber "task" 0 total filters
      else deleteCursorFor db userNumber "task"
    let taskIds := tasks.map (·.id)
    let taskMappings := buildMappings Task.id 0 tasks
    (Msg.taskPage tasks total 0, upsertContextTasks now db2 userNumber taskIds taskMappings)
  else if analysis.entityType = some "order" ∨ analysis.entityType = some "product" then
    let dr := if strTruthy analysis.parameters.dateRange then
      analysis.parameters.dateRange else none
    let filters : Filters := { limit := some 5, dateRange := dr }
    let res := getOrders now db userNumber filters
    let orders := res.1
    let total := res.2
    let db2 :=
      if total > orders.length then
        insertCursor now (deleteCursorFor db userNumber "order") userNumber "order" 0 total filters
      else deleteCursorFor db userNumber "order"
    let orderIds := orders.map orderDisplayId
    let orderMappings := buildMappings orderDisplayId 0 orders
    (Msg.orderPage orders total 0, upsertContextOrders now db2 userNumber orderIds orderMappings)
  else (Msg.text "I can show you your tasks or orders. What would you like to see?", db)

/-! ## Reply handler (src/unnamed/part_009, first document) -/

/-- The details-request heuristic; `&&` binds tighter than `||` exactly as
in the source. -/
def isDetailsRequest (lowerBody : List Char) : Bool :=
  containsSub lowerBody "details".toList
  || containsSub lowerBody "detail".toList
  || containsSub lowerBody "information".toList
  || containsSub lowerBody "info".toList
  || containsSub lowerBody "tell me about".toList
  || (containsSub lowerBody "show".toList
      && (containsSub lowerBody "order".toList || containsSub lowerBody "task".toList))

/-- The `statusKeywords` object in its insertion order. -/
def statusKeywords : List (List Char × String) :=
  [("done".toList, "completed"), ("complete".toList, "completed"),
   ("completed".toList, "completed"), ("processing".toList, "processing"),
   ("pending".toList, "pending"), ("cancelled".toList, "cancelled"),
   ("cancel".toList, "cancelled"), ("finish".toList, "completed"),
   ("finished".toList, "completed")]

/-- First status keyword contained in the lower-cased body. -/
def firstStatusKeyword (lowerBody : List Char) : Option String :=
  (statusKeywords.find? (fun p => containsSub lowerBody p.1)).map Prod.snd

/-- `updates` nonemptiness test (`Object.keys(updates).length > 0`). -/
def taskUpdatesNonempty (u : UpdatesJson) : Bool :=
  u.status.isSome || u.title.isSome || u.description.isSome || u.dueDate.isSome

/-- Fallback push of `context.orderIds[n-1]` used when a mapping entry is
missing or already collected. -/
def fallbackPushOrder (ids : List String) (acc : List String) (n : Nat) :
    List String :=
  if 0 < n ∧ n ≤ ids.length then
    let fb := ids.getD (n - 1) ""
    if fb ∉ acc then acc ++ [fb] else acc
  else acc

def handleUpdateWithContext (jsParse : List Char → Option Int) (now : Int)
    (db : Db) (userNumber body : String) (analysis : Analysis)
    (context : MessageContext) : Option (Msg × Db) :=
  if context.entityType = some "order" ∧ ¬context.orderIds.isEmpty then
    let fromParam : List String :=
      match analysis.parameters.orderId with
      | some oid =>
          if oid ≠ "" then
            match lookupKey context.orderMappings oid with
            | some mapped => if mapped ≠ "" then [mapped] else []
            | none => []
          else []
      | none => []
    let afterMulti :=
      if fromParam.isEmpty then
        let orderNumbers := parseMultipleOrderNumbersFromMessage body context.orderIds.length
        if ¬orderNumbers.isEmpty then
          orderNumbers.foldl (fun acc n =>
            match lookupKey context.orderMappings (natKey n) with
            | some oid =>
                if oid ≠ "" ∧ oid ∉ acc then acc ++ [oid]
                else fallbackPushOrder context.orderIds acc n
            | none => fallbackPushOrder context.orderIds acc n) []
        else []
      else fromParam
    let afterSingle :=
      if afterMulti.isEmpty then
        match parseOrderNumberFromMessage body context.orderIds.length with
        | some n =>
            match lookupKey context.orderMappings (natKey n) with
            | some oid =>
                if oid ≠ "" then [oid]
                else if 0 < n ∧ n ≤ context.orderIds.length then
                  [context.orderIds.getD (n - 1) ""]
                else []
            | none =>
                if 0 < n ∧ n ≤ context.orderIds.length then
                  [context.orderIds.getD (n - 1) ""]
                else []
        | none => []
      else afterMulti
    let targetOrderIds := if afterSingle.isEmpty then context.orderIds else afterSingle
    if strTruthy analysis.parameters.status ∧ ¬targetOrderIds.isEmpty then
      let st := analysis.parameters.status.getD ""
      let res := targetOrderIds.foldl (fun (acc : List Order × Db × Bool) oid =>
          match updateOrder acc.2.1 oid { status := some st } with
          | some r => (acc.1 ++ [r.1], r.2, acc.2.2)
          | none => (acc.1, acc.2.1, false)) ([], db, true)
      if res.2.2 then
        match res.1 with
        | [o] => some (Msg.updateOrderOk o, res.2.1)
        | os => some (Msg.updatedOrdersCount os.length st, res.2.1)
      else
        some (Msg.text "I\x27m sorry, I couldn\x27t update the order(s). Please try again.",
              res.2.1)
    else
      some (Msg.text "What would you like to update about this order? (e.g., \x27mark as done\x27, \x27update status to processing\x27)",
            db)
  else if context.entityType = some "task" ∧ ¬context.taskIds.isEmpty then
    let fromParam : List Nat :=
      match analysis.parameters.taskId with
      | some tid =>
          if tid ≠ 0 then
            match lookupKey context.taskMappings (natKey tid) with
            | some mapped => if mapped ≠ 0 then [mapped] else []
            | none => []
          else []
      | none => []
    let afterSingle :=
      if fromParam.isEmpty then
        match parseOrderNumberFromMessage body context.taskIds.length with
        | some n =>
            match lookupKey context.taskMappings (natKey n) with
            | some tid =>
                if tid ≠ 0 then [tid]
                else if 0 < n ∧ n ≤ context.taskIds.length then
                  [context.taskIds.getD (n - 1) 0]
                else []
            | none =>
                if 0 < n ∧ n ≤ context.taskIds.length then
                  [context.taskIds.getD (n - 1) 0]
                else []
        | none => []
      else fromParam
    let targetTaskIds := if afterSingle.isEmpty then context.taskIds else afterSingle
    let updates : UpdatesJson :=
      { status := if strTruthy analysis.parameters.status then analysis.parameters.status else none,
        title := if strTruthy analysis.parameters.title then analysis.parameters.title else none,
        description := analysis.parameters.description,
        dueDate := match analysis.parameters.dueDate with
          | some s => if s ≠ "" then some (jsParse s.toList) else none
          | none => none }
    if taskUpdatesNonempty updates ∧ ¬targetTaskIds.isEmpty then
      let res := targetTaskIds.foldl (fun (acc : List Task × Db × Bool) tid =>
          match updateTask acc.2.1 tid updates with
          | some r => (acc.1 ++ [r.1], r.2, acc.2.2)
          | none => (acc.1, acc.2.1, false)) ([], db, true)
      if res.2.2 then
        match res.1 with
        | [t] => some (Msg.updateTaskOk t, res.2.1)
        | ts => some (Msg.updatedTasksCount ts.length updates.status, res.2.1)
      else
        some (Msg.text "I\x27m sorry, I couldn\x27t update the task(s). Please try again.",
              res.2.1)
    else
      some (Msg.text "What would you like to update about this task? (e.g., \x27mark as completed\x27, \x27change title to...\x27)",
            db)
  else none

def handleGetWithContext (db : Db) (userNumber body : String)
    (analysis : Analysis) (context : MessageContext) : Option (Msg × Db) :=
  if context.entityType = some "order" ∧ ¬context.orderIds.isEmpty then
    let fromParam : Option String :=
      match analysis.parameters.orderId with
      | some oid =>
          if oid ≠ "" then
            match lookupKey context.orderMappings oid with
            | some mapped => if mapped ≠ "" then some mapped else none
            | none => none
          else none
      | none => none
    let target :=
      match fromParam with
      | some t => some t
      | none =>
          match parseOrderNumberFromMessage body context.orderIds.length with
          | some n =>
              let viaMap :=
                if ¬context.orderMappings.isEmpty then
                  match lookupKey context.orderMappings (natKey n) with
                  | some oid => if oid ≠ "" then some oid else none
                  | none => none
                else none
              match viaMap with
              | some t => some t
              | none =>
                  if 0 < n ∧ n ≤ context.orderIds.length then
                    some (context.orderIds.getD (n - 1) "")
                  else none
          | none => none
    match target with
    | some oid =>
        match getOrderByOrderId db userNumber oid with
        | some o => some (Msg.orderDetails o, db)
        | none => some (Msg.orderNotFound oid, db)
    | none => none
  else none

/-- `handleReply(userNumber, body, referredMessageSid, context)`. -/
def handleReply (analyze : String → Analysis) (jsParse : List Char → Option Int)
    (now : Int) (db : Db) (userNumber body : String)
    (context : MessageContext) : Option (Msg × Db) :=
  let analysis := analyze body
  let lowerBody := lowerStr body.toList
  let detailsReq := isDetailsRequest lowerBody
  let effectiveAnalysis :=
    if analysis.intent = "unknown" ∧ strTruthy context.entityType then
      match firstStatusKeyword lowerBody with
      | some st =>
          { intent := "update", entityType := context.entityType,
            parameters := { status := some st } }
      | none =>
          if detailsReq then
            { intent := "get", entityType := context.entityType,
              parameters := analysis.parameters }
          else analysis
    else analysis
  if effectiveAnalysis.intent = "update" ∧ strTruthy context.entityType then
    handleUpdateWithContext jsParse now db userNumber body effectiveAnalysis context
  else if (analysis.intent = "get" ∨ detailsReq) ∧ strTruthy context.entityType then
    handleGetWithContext db userNumber body
      (if analysis.intent = "get" then analysis else effectiveAnalysis) context
  else none

/-! ## Update handler (src/apps/web/lib/actions/update-handler.ts) -/

/-- The `parseDate` helper of the update handler. -/
def parseDateUH (jsParse : List Char → Option Int) (now : Int)
    (dateStr : String) : Option Int :=
  let lowerDate := lowerStr (trimChars dateStr.toList)
  if containsSub lowerDate "19th".toList || containsSub lowerDate "19".toList then
    let month := match monthNames.findIdx? (fun nm => containsSub lowerDate nm) with
      | some i => (i : Int)
      | none => getMonth now
    let parsed := jsMakeDate (getFullYear now) month 19 0 0
    some (if parsed < now then setMonthJs parsed (month + 1) else parsed)
  else jsParse dateStr.toList

/-- The task-update payload assembled from classifier parameters. -/
def buildTaskUpdatesUH (jsParse : List Char → Option Int) (now : Int)
    (p : Params) : UpdatesJson :=
  { status := if strTruthy p.status then p.status else none,
    title := if strTruthy p.title then p.title else none,
    description := p.description,
    dueDate := match p.dueDate with
      | some s => if s ≠ "" then some (parseDateUH jsParse now s) else none
      | none => none }

/-- `handleUpdate(userNumber, analysis, body)` with the external task
matcher as a parameter. -/
def handleUpdate (matchTask : String → List Task → TaskMatchResult)
    (jsParse : List Char → Option Int) (now : Int) (db : Db)
    (userNumber : String) (analysis : Analysis) (body : String) : Msg × Db :=
  if analysis.entityType = some "task" ∨ analysis.entityType = some "reminder" then
    let allTasks := (getTasks now db userNumber { limit := some 1000 }).1
    if allTasks.isEmpty then
      (Msg.text "You don\x27t have any tasks to update.", db)
    else
      let matchResult := matchTask body allTasks
      match matchResult.bestMatch with
      | none =>
          (Msg.text "I couldn\x27t find a matching task. Please be more specific (e.g., \x27update task 1\x27 or \x27change my appointment on 15th\x27).",
           db)
      | some bm =>
          if matchResult.needsConfirmation then
            match allTasks.find? (fun t => t.id = bm.taskId) with
            | some task =>
                let updates := buildTaskUpdatesUH jsParse now analysis.parameters
                match insertTaskConfirmation now db userNumber task.id updates body with
                | some db2 => (Msg.confirmTaskPrompt task matchResult.allMatches.length, db2)
                | none =>
                    (Msg.text "I\x27m sorry, I couldn\x27t update that task. Please try again.",
                     db)
            | none => (Msg.text "I couldn\x27t find the task. Please try again.", db)
          else
            match allTasks.find? (fun t => t.id = bm.taskId) with
            | some task =>
                let updates := buildTaskUpdatesUH jsParse now analysis.parameters
                match updateTask db task.id updates with
                | some r => (Msg.updateTaskOk r.1, r.2)
                | none =>
                    (Msg.text "I\x27m sorry, I couldn\x27t update that task. Please try again.",
                     db)
            | none => (Msg.text "I couldn\x27t find the task. Please try again.", db)
  else if analysis.entityType = some "order" ∨ analysis.entityType = some "product" then
    if ¬ strTruthy analysis.parameters.orderId then
      (Msg.text "Please specify which order to update (e.g., \x27update order #123\x27).", db)
    else
      let updates : UpdatesJson :=
        { status := if strTruthy analysis.parameters.status then analysis.parameters.status else none,
          productName := if strTruthy analysis.parameters.productName then analysis.parameters.productName else none,
          quantity := analysis.parameters.quantity }
      match updateOrder db (analysis.parameters.orderId.getD "") updates with
      | some r => (Msg.updateOrderOk r.1, r.2)
      | none =>
          (Msg.text "I\x27m sorry, I couldn\x27t update that order. Please check the order ID and try again.",
           db)
  else (Msg.text "I can help you update tasks or orders. What would you like to update?", db)

/-! ## Context loader (src/unnamed/part_008) and router (src/unnamed/part_000) -/

/-- `loadMessageContext(userNumber, referredMessageSid)`: the most recent
`user_message_context` row of the user; the fallback that reconstructs a
context from the referred message row concerns the unmodeled `messages`
table and yields nothing here. -/
def loadMessageContext (db : Db) (userNumber : String)
    (referredMessageSid : Option String) : Option MessageContext :=
  match referredMessageSid with
  | none => none
  | some _ =>
      match db.contexts.find? (fun c => c.userNumber = userNumber) with
      | some c =>
          some { entityType := c.entityType, orderIds := c.orderIds,
                 taskIds := c.taskIds, orderMappings := c.orderMappings,
                 taskMappings := c.taskMappings }
      | none => none

/-- The resolution stage that produced the reply. -/
inductive Stage where
  | empty : Stage
  | forwarded : Stage
  | reply : Stage
  | pagination : Stage
  | confirmation : Stage
  | classify : Stage
deriving Repr, DecidableEq

/-- One inbound webhook message. -/
structure Inbound where
  fromNumber : String
  body : String
  isForwarded : Bool
  referredMessageSid : Option String
deriving Repr, DecidableEq

/-- Outcome of `POST`: the claiming stage, the reply, the new store and
the number of repository page fetches done by the pagination stage. -/
structure RouteResult where
  stage : Stage
  reply : Msg
  db : Db
  pagFetches : Nat
deriving Repr, DecidableEq

/-- The priority chain of `POST` (src/unnamed/part_000): forwarded-message
override, reply resolution, pagination, confirmation, fresh
classification. -/
def route (analyze : String → Analysis)
    (matchTask : String → List Task → TaskMatchResult)
    (jsParse : List Char → Option Int) (now : Int) (db : Db)
    (msg : Inbound) : RouteResult :=
  if (trimChars msg.body.toList).isEmpty then ⟨Stage.empty, Msg.hi, db, 0⟩
  else
    let userNumber := msg.fromNumber
    let messageBody := lowerStr (trimChars msg.body.toList)
    let forwardedResult : Option (Msg × Db) :=
      if msg.isForwarded then
        let analysis := analyze msg.body
        if analysis.intent = "create" ∨ analysis.intent = "unknown" then
          some (handleCreate jsParse now db userNumber
            { intent := "create", entityType := some "order",
              parameters := analysis.parameters } msg.body)
        else none
      else none
    match forwardedResult with
    | some r => ⟨Stage.forwarded, r.1, r.2, 0⟩
    | none =>
        let replyResult : Option (Msg × Db) :=
          match msg.referredMessageSid with
          | some sid =>
              match loadMessageContext db userNumber (some sid) with
              | some context =>
                  handleReply analyze jsParse now db userNumber msg.body context
              | none => none
          | none => none
        match replyResult with
        | some r => ⟨Stage.reply, r.1, r.2, 0⟩
        | none =>
            match handlePagination now db userNumber messageBody with
            | some r => ⟨Stage.pagination, r.1, r.2.1, r.2.2⟩
            | none =>
                match handleConfirmation jsParse now db userNumber messageBody with
                | some r => ⟨Stage.confirmation, r.1, r.2, 0⟩
                | none =>
                    let analysis := analyze msg.body
                    if analysis.intent = "create" then
                      let r := handleCreate jsParse now db userNumber analysis msg.body
                      ⟨Stage.classify, r.1, r.2, 0⟩
                    else if analysis.intent = "get" then
                      let r := handleGet now db userNumber analysis
                      ⟨Stage.classify, r.1, r.2, 0⟩
                    else if analysis.intent = "update" then
                      let r := handleUpdate matchTask jsParse now db userNumber analysis msg.body
                      ⟨Stage.classify, r.1, r.2, 0⟩
                    else ⟨Stage.classify, Msg.unknownIntentHelp, db, 0⟩

/-! ## Concrete fixtures used by counterexamples and witnesses -/

def exUser : String := "whatsapp:+15550001111"

def emptyDb : Db :=
  { tasks := [], orders := [], pendingConfirmations := [],
    paginationStates := [], contexts := [], orderItems := [], nextId := 0 }

def exOrder (i : Nat) (nm : String) (q : Int) (fd : Option Int) (ca : Int) : Order :=
  { id := i, userNumber := exUser, orderId := some ("ORD-" ++ toString i),
    productName := nm, quantity := q, status := "pending",
    fulfillmentDate := fd, originalMessage := none, createdAt := ca }

def exGetOrdersAnalysis : Analysis :=
  { intent := "get", entityType := some "order", parameters := {} }

def exUnknownAnalysis : Analysis :=
  { intent := "unknown", entityType := none, parameters := {} }

def exNoMatch : TaskMatchResult :=
  { bestMatch := none, allMatches := [], needsConfirmation := false }

def exJsParse : List Char → Option Int := fun _ => none

/-- Six pending orders for one user, so a fresh listing leaves one more
page. -/
def c1Db : Db :=
  { emptyDb with
    orders := (List.range 6).map (fun i => exOrder i ("p" ++ toString i) 1 (some (1000 * i)) 0),
    nextId := 100 }

def c1AfterGet : Db := (handleGet 0 c1Db exUser exGetOrdersAnalysis).2

def c1AfterNext : RouteResult :=
  route (fun _ => exGetOrdersAnalysis) (fun _ _ => exNoMatch) exJsParse 1 c1AfterGet
    { fromNumber := exUser, body := "next", isForwarded := false,
      referredMessageSid := none }

def c3Params : Params :=
  { productName := some "Cake", quantity := some 1,
    fulfillmentDate := some "tomorrow" }

def c3Analysis : Analysis :=
  { intent := "create", entityType := some "order", parameters := c3Params }

/-- One hundred pending orders with earlier fulfillment dates and distinct
products, then a pending order identical to the incoming request. -/
def c3BigDb : Db :=
  { emptyDb with
    orders := ((List.range 100).map (fun i => exOrder i ("f" ++ toString i) 1 (some (i : Int)) 0))
      ++ [exOrder 100 "cake" 1 (some 86400000) 0],
    nextId := 200 }

def c3BigResult : Msg × Db := handleCreate exJsParse 0 c3BigDb exUser c3Analysis "order cake for tomorrow"

def c3SmallDb : Db :=
  { emptyDb with orders := [exOrder 0 "cake" 1 (some 86400000) 0], nextId := 50 }

def c5Pending : PendingConfirmation :=
  { id := 7, userNumber := exUser, taskId := none, orderId := some "ORD-3",
    updates := { action := some "create_duplicate", productName := some "cake",
                 quantity := some 2, fulfillmentDate := some "tomorrow" },
    originalMessage := some "orig", createdAt := 0, expiresAt := 10 }

def c6Db : Db :=
  { emptyDb with
    pendingConfirmations := [{ c5Pending with taskId := some 1, expiresAt := 0 }] }

def c8Task : Task :=
  { id := 42, userNumber := exUser, title := "pack boxes", description := none,
    dueDate := none, status := "pending", originalMessage := none, createdAt := 0 }

def c8Db : Db :=
  { emptyDb with
    tasks := [c8Task],
    contexts := [{ userNumber := exUser, entityType := some "task",
                   orderIds := [], taskIds := [42], orderMappings := [],
                   taskMappings := [(natKey 1, 42)], createdAt := 0 }] }

def c8Result : RouteResult :=
  route (fun _ => exUnknownAnalysis) (fun _ _ => exNoMatch) exJsParse 5 c8Db
    { fromNumber := exUser, body := "done", isForwarded := false,
      referredMessageSid := some "SM1" }

/-- A Tuesday at 14:00 local time (1970-01-06 was a Tuesday). -/
def exTue1400 : Int := 5 * 86400000 + 50400000

/-- A Monday at 12:00 local time (1970-01-05 was a Monday). -/
def exMonday1200 : Int := 4 * 86400000 + 43200000

/-- The property a position map and id list are claimed to satisfy:
looking up the string key of display position `off + i + 1` yields the
id stored at index `i`. -/
def mapAligned {α : Type} (mappings : List (String × α)) (ids : List α)
    (off : Nat) : Prop :=
  ∀ i, i < ids.length → lookupKey mappings (natKey (off + i + 1)) = ids.get? i

/-- The only shapes in which live pending confirmations are ever written:
a duplicate-order decision (order id plus `create_duplicate` action) by
the create handler, or a task confirmation (task id) by the update
handler. -/
def reachableShape (p : PendingConfirmation) : Prop :=
  (p.updates.action = some "create_duplicate" ∧ strTruthy p.orderId = true)
  ∨ p.taskId.isSome = true

/-! # Theorems -/

/-! ## Decimal key infrastructure -/

theorem digitChar10_val (d : Nat) (h : d < 10) :
    (digitChar10 d).toNat - 48 = d := by
  interval_cases d <;> rfl

theorem natOfRun_append_one (xs : List Char) (c : Char) :
    natOfRun (xs ++ [c]) = natOfRun xs * 10 + (c.toNat - 48) := by
  simp [natOfRun, List.foldl_append]

theorem natOfRun_natKeyCharsAux :
    ∀ (fuel n : Nat), n < fuel → natOfRun (natKeyCharsAux fuel n) = n := by
  intro fuel
  induction fuel with
  | zero => intro n h; omega
  | succ f ih =>
      intro n h
      rw [natKeyCharsAux]
      by_cases h10 : n < 10
      · simp only [h10, if_pos]
        simp [natOfRun, digitChar10_val n h10]
      · simp only [h10, if_neg, not_false_iff]
        rw [natOfRun_append_one, ih (n / 10) (by omega),
          digitChar10_val (n % 10) (Nat.mod_lt n (by omega))]
        omega

theorem natOfRun_natKeyChars (n : Nat) : natOfRun (natKeyChars n) = n :=
  natOfRun_natKeyCharsAux (n + 1) n (Nat.lt_succ_self n)

theorem natKey_injective : Function.Injective natKey := by
  intro a b h
  have : natKeyChars a = natKeyChars b := congrArg String.data h
  have := congrArg natOfRun this
  rwa [natOfRun_natKeyChars, natOfRun_natKeyChars] at this

theorem lookup_buildMappings {α β : Type} (f : α → β) :
    ∀ (l : List α) (off i : Nat), i < l.length →
      lookupKey (buildMappings f off l) (natKey (off + i + 1)) = (l.get? i).map f := by
  intro l
  induction l with
  | nil => intro off i h; simp at h
  | cons x xs ih =>
      intro off i h
      cases i with
      | zero => simp [buildMappings, lookupKey]
      | succ j =>
          have hj : j < xs.length := Nat.lt_of_succ_lt_succ h
          calc lookupKey (buildMappings f off (x :: xs)) (natKey (off + (j + 1) + 1))
              = lookupKey (buildMappings f (off + 1) xs) (natKey (off + (j + 1) + 1)) := by
                simp only [buildMappings, lookupKey]
                rw [List.find?_cons_of_neg]
                simp only [decide_eq_true_eq]
                intro he
                have := natKey_injective he
                omega
            _ = (xs.get? j).map f := by
                rw [show off + (j + 1) + 1 = (off + 1) + j + 1 by omega]
                exact ih (off + 1) j hj
            _ = (((x :: xs).get? (j + 1)).map f) := by simp

/-! ## Range lemmas for the reference resolver -/

theorem findOrdinal_bound (lower : List Char) (maxNumber : Nat) :
    ∀ (l : List (List Char × Nat)) (n : Nat),
      findOrdinal lower maxNumber l = some n →
      n ≤ maxNumber ∧ ∃ p ∈ l, p.2 = n := by
  intro l
  induction l with
  | nil => intro n h; simp [findOrdinal] at h
  | cons p rest ih =>
      obtain ⟨w, v⟩ := p
      intro n h
      rw [findOrdinal] at h
      split at h
      · next hc =>
          have h2 : v = n := by injection h
          exact ⟨h2 ▸ hc.2, ⟨(w, v), List.mem_cons_self _ _, h2⟩⟩
      · obtain ⟨hb, q, hq, he⟩ := ih n h
        exact ⟨hb, q, List.mem_cons_of_mem _ hq, he⟩

theorem firstValidPattern_bound (maxNumber : Nat) :
    ∀ (l : List (Option Nat)) (n : Nat),
      firstValidPattern maxNumber l = some n → 1 ≤ n ∧ n ≤ maxNumber := by
  intro l
  induction l with
  | nil => intro n h; simp [firstValidPattern] at h
  | cons o rest ih =>
      intro n h
      match o with
      | none =>
          rw [firstValidPattern] at h
          exact ih n h
      | some m =>
          rw [firstValidPattern] at h
          split at h
          · next hc => cases h; exact ⟨hc.1, hc.2⟩
          · exact ih n h

theorem parseOrderNumber_range (text : String) (maxPosition n : Nat)
    (h : parseOrderNumberFromMessage text maxPosition = some n) :
    1 ≤ n ∧ n ≤ maxPosition := by
  simp only [parseOrderNumberFromMessage] at h
  split at h
  · next m hm =>
      cases h
      obtain ⟨hb, p, hp, he⟩ := findOrdinal_bound _ _ _ _ hm
      have hall : ∀ q ∈ ordinalWords, 1 ≤ q.2 := by decide
      exact ⟨he ▸ hall p hp, hb⟩
  · exact firstValidPattern_bound _ _ _ h

theorem collectNumbers_range (maxNumber : Nat) :
    ∀ (ns acc : List Nat),
      (∀ x ∈ acc, 1 ≤ x ∧ x ≤ maxNumber) →
      ∀ x ∈ collectNumbers maxNumber ns acc, 1 ≤ x ∧ x ≤ maxNumber := by
  intro ns
  induction ns with
  | nil =>
      intro acc hacc x hx
      rw [collectNumbers] at hx
      exact hacc x hx
  | cons n rest ih =>
      intro acc hacc x hx
      rw [collectNumbers] at hx
      split at hx
      · next hc =>
          refine ih _ ?_ x hx
          intro y hy
          rcases List.mem_append.1 hy with hy | hy
          · exact hacc y hy
          · have : y = n := by simpa using hy
            subst this
            exact ⟨hc.1, hc.2.1⟩
      · exact ih acc hacc x hx

theorem nodup_append_singleton {α : Type} {l : List α} {a : α}
    (h : l.Nodup) (ha : a ∉ l) : (l ++ [a]).Nodup := by
  rw [List.nodup_append]
  refine ⟨h, List.nodup_singleton a, ?_⟩
  intro x hx hx'
  have : x = a := by simpa using hx'
  subst this
  exact ha hx

theorem collectNumbers_nodup (maxNumber : Nat) :
    ∀ (ns acc : List Nat), acc.Nodup → (collectNumbers maxNumber ns acc).Nodup := by
  intro ns
  induction ns with
  | nil => intro acc h; rw [collectNumbers]; exact h
  | cons n rest ih =>
      intro acc h
      rw [collectNumbers]
      split
      · next hc => exact ih _ (nodup_append_singleton h hc.2.2)
      · exact ih acc h

theorem collectOrdinals_range (lower : List Char) (maxNumber : Nat) :
    ∀ (l : List (List Char × Nat)) (acc : List Nat),
      (∀ p ∈ l, 1 ≤ p.2) →
      (∀ x ∈ acc, 1 ≤ x ∧ x ≤ maxNumber) →
      ∀ x ∈ collectOrdinals lower maxNumber l acc, 1 ≤ x ∧ x ≤ maxNumber := by
  intro l
  induction l with
  | nil =>
      intro acc _ hacc x hx
      rw [collectOrdinals] at hx
      exact hacc x hx
  | cons p rest ih =>
      obtain ⟨w, v⟩ := p
      intro acc hl hacc x hx
      rw [collectOrdinals] at hx
      split at hx
      · next hc =>
          refine ih _ (fun q hq => hl q (List.mem_cons_of_mem _ hq)) ?_ x hx
          intro y hy
          rcases List.mem_append.1 hy with hy | hy
          · exact hacc y hy
          · have hyv : y = v := by simpa using hy
            rw [hyv]
            exact ⟨hl (w, v) (List.mem_cons_self _ _), hc.2.1⟩
      · exact ih acc (fun q hq => hl q (List.mem_cons_of_mem _ hq)) hacc x hx

theorem collectOrdinals_nodup (lower : List Char) (maxNumber : Nat) :
    ∀ (l : List (List Char × Nat)) (acc : List Nat),
      acc.Nodup → (collectOrdinals lower maxNumber l acc).Nodup := by
  intro l
  induction l with
  | nil => intro acc h; rw [collectOrdinals]; exact h
  | cons p rest ih =>
      obtain ⟨w, v⟩ := p
      intro acc h
      rw [collectOrdinals]
      split
      · next hc => exact ih _ (nodup_append_singleton h hc.2.2)
      · exact ih acc h

/-- C7: for maxPosition 5 the resolver maps "3rd" to 3, "order 5" to 5 and
"99" to nothing; "1,2,3" resolves to [1,2,3] and "second and fourth" to
[2,4]; and for every text and maxPosition both entry points return only
positions within [1, maxPosition], the multiple-reference result being
sorted ascending and duplicate-free. -/
theorem c7_reference_resolver :
    parseOrderNumberFromMessage "3rd" 5 = some 3
    ∧ parseOrderNumberFromMessage "order 5" 5 = some 5
    ∧ parseOrderNumberFromMessage "99" 5 = none
    ∧ parseMultipleOrderNumbersFromMessage "1,2,3" 5 = [1, 2, 3]
    ∧ parseMultipleOrderNumbersFromMessage "second and fourth" 5 = [2, 4]
    ∧ (∀ text maxPosition n,
        parseOrderNumberFromMessage text maxPosition = some n →
        1 ≤ n ∧ n ≤ maxPosition)
    ∧ (∀ text maxPosition,
        (∀ n ∈ parseMultipleOrderNumbersFromMessage text maxPosition,
          1 ≤ n ∧ n ≤ maxPosition)
        ∧ List.Sorted (· ≤ ·) (parseMultipleOrderNumbersFromMessage text maxPosition)
        ∧ (parseMultipleOrderNumbersFromMessage text maxPosition).Nodup) := by
  refine ⟨by decide, by decide, by decide, by decide, by decide,
    fun text maxPosition n h => parseOrderNumber_range text maxPosition n h,
    fun text maxPosition => ?_⟩
  unfold parseMultipleOrderNumbersFromMessage
  set lower := lowerStr (trimChars text.toList) with hl
  set nums := collectOrdinals lower maxPosition ordinalWords
    (collectNumbers maxPosition ((digitRuns lower).map natOfRun) []) with hn
  have hrange : ∀ x ∈ nums, 1 ≤ x ∧ x ≤ maxPosition := by
    rw [hn]
    exact collectOrdinals_range lower maxPosition ordinalWords _
      (by decide)
      (collectNumbers_range maxPosition _ [] (by simp))
  have hnodup : nums.Nodup := by
    rw [hn]
    exact collectOrdinals_nodup lower maxPosition ordinalWords _
      (collectNumbers_nodup maxPosition _ [] List.nodup_nil)
  refine ⟨?_, ?_, ?_⟩
  · intro x hx
    exact hrange x ((List.mem_insertionSort _).1 hx)
  · exact List.sorted_insertionSort _ nums
  · exact ((List.perm_insertionSort _ nums).nodup_iff).2 hnodup

/-- Witness for C7: the universally quantified range clause applied at the
concrete input "3rd" with maxPosition 5. -/
theorem c7_reference_resolver_witness : 1 ≤ 3 ∧ 3 ≤ 5 :=
  c7_reference_resolver.2.2.2.2.2.1 "3rd" 5 3 (by decide)

/-! ## C10: default fulfillment timestamp -/

/-- C10: whenever `createOrder` receives no fulfillment date string, an
empty one, or one that fails both the date-time parser and the fallback
parser, the resolved fulfillment date is the creation time plus five
hours, and the persisted order row carries exactly that non-null value. -/
theorem c10_default_fulfillment :
    ∀ (jsParse : List Char → Option Int) (now : Int) (fd : Option String),
      (fd = none → resolveOrderFulfillment jsParse now fd = now + 5 * msPerHour)
      ∧ (∀ s, fd = some s → parseDateTimeSpec now s = none →
          orderFallbackParse jsParse now s = none →
          resolveOrderFulfillment jsParse now fd = now + 5 * msPerHour)
      ∧ resolveOrderFulfillment jsParse now (some "") = now + 5 * msPerHour
      ∧ (∀ db user pn q oid om items,
          (createOrderDb jsParse now db user pn q oid fd om items).1.fulfillmentDate
            = some (resolveOrderFulfillment jsParse now fd)) := by
  intro jsParse now fd
  refine ⟨?_, ?_, rfl, fun db user pn q oid om items => rfl⟩
  · rintro rfl; rfl
  · rintro s rfl h1 h2
    by_cases hs : s = ""
    · subst hs; rfl
    · have ht : strTruthy (some s) = true := by simp [strTruthy, hs]
      simp [resolveOrderFulfillment, ht, h1, h2]

/-- Witness for C10: an absent fulfillment date resolves to now plus five
hours at concrete inputs. -/
theorem c10_default_fulfillment_witness :
    resolveOrderFulfillment exJsParse 0 none = 0 + 5 * msPerHour :=
  (c10_default_fulfillment exJsParse 0 none).1 rfl

/-! ## C2: pagination priority and the terminal no-cursor reply -/

theorem handlePagination_some (now : Int) (db : Db) (u : String)
    (mb : List Char) (h : isNextBody mb = true) :
    ∃ r, handlePagination now db u mb = some r := by
  unfold handlePagination
  rw [h]
  simp only [not_true, if_false, decide_True, Bool.not_true]
  cases latestLiveCursor now db u with
  | none => exact ⟨_, rfl⟩
  | some pag =>
      dsimp only
      by_cases ht : pag.entityType = "task"
      · rw [if_pos ht]; exact ⟨_, rfl⟩
      · rw [if_neg ht]
        by_cases ho : pag.entityType = "order"
        · rw [if_pos ho]; exact ⟨_, rfl⟩
        · rw [if_neg ho]; exact ⟨_, rfl⟩

/-- C2: a message whose trimmed lower-cased body is "next", "more" or
starts with "next" and that is neither forwarded nor a reply is always
resolved by the pagination stage; with no live cursor the reply is exactly
the static terminal string, no repository page is fetched, and the store
is untouched. The statement quantifies over every store, so it holds in
particular when a live pending confirmation exists. -/
theorem c2_pagination_wins :
    ∀ (analyze : String → Analysis)
      (matchTask : String → List Task → TaskMatchResult)
      (jsParse : List Char → Option Int) (now : Int) (db : Db) (msg : Inbound),
      msg.isForwarded = false →
      msg.referredMessageSid = none →
      isNextBody (lowerStr (trimChars msg.body.toList)) = true →
      (route analyze matchTask jsParse now db msg).stage = Stage.pagination
      ∧ (latestLiveCursor now db msg.fromNumber = none →
          (route analyze matchTask jsParse now db msg).reply = Msg.text noMoreItemsText
          ∧ (route analyze matchTask jsParse now db msg).pagFetches = 0
          ∧ (route analyze matchTask jsParse now db msg).db = db) := by
  intro analyze matchTask jsParse now db msg hf hr hnext
  have hne : (trimChars msg.body.toList).isEmpty = false := by
    cases htr : trimChars msg.body.toList with
    | nil =>
        rw [htr] at hnext
        exact absurd hnext (by decide)
    | cons a l => rfl
  obtain ⟨r, hp⟩ := handlePagination_some now db msg.fromNumber
    (lowerStr (trimChars msg.body.toList)) hnext
  have hroute : route analyze matchTask jsParse now db msg
      = ⟨Stage.pagination, r.1, r.2.1, r.2.2⟩ := by
    unfold route
    rw [hf, hr]
    simp only [hne, Bool.false_eq_true, if_false, if_neg, ite_false]
    rw [hp]
  constructor
  · rw [hroute]
  · intro hcur
    have hrv : r = (Msg.text noMoreItemsText, db, 0) := by
      unfold handlePagination at hp
      rw [hnext] at hp
      simp only [not_true, Bool.not_true] at hp
      rw [hcur] at hp
      simp only [if_neg] at hp
      exact Option.some_injective _ hp.symm
    rw [hroute, hrv]
    exact ⟨rfl, rfl, rfl⟩

/-- Witness for C2: the concrete "next" message on an empty store. -/
theorem c2_pagination_wins_witness :
    (route (fun _ => exGetOrdersAnalysis) (fun _ _ => exNoMatch) exJsParse 0 emptyDb
      { fromNumber := exUser, body := " NEXT ", isForwarded := false,
        referredMessageSid := none }).stage = Stage.pagination :=
  (c2_pagination_wins (fun _ => exGetOrdersAnalysis) (fun _ _ => exNoMatch)
    exJsParse 0 emptyDb
    { fromNumber := exUser, body := " NEXT ", isForwarded := false,
      referredMessageSid := none } rfl rfl (by decide)).1

/-! ## C1: position-map alignment -/

theorem upsertContextOrders_fields (now : Int) (db : Db) (u : String)
    (ids : List String) (maps : List (String × String)) :
    ∀ c ∈ (upsertContextOrders now db u ids maps).contexts,
      c.userNumber = u → c.orderIds = ids ∧ c.orderMappings = maps := by
  intro c hc hcu
  unfold upsertContextOrders at hc
  split at hc
  · next c0 hfind =>
      rcases List.mem_map.1 hc with ⟨c1, hc1, he⟩
      by_cases h1 : c1.userNumber = u
      · rw [if_pos h1] at he
        rw [← he]
        exact ⟨rfl, rfl⟩
      · rw [if_neg h1] at he
        rw [← he] at hcu
        exact absurd hcu h1
  · next hfind =>
      rcases List.mem_append.1 hc with hmem | hmem
      · have := List.find?_eq_none.1 hfind c hmem
        simp [hcu] at this
      · have hcv : c = ⟨u, some "order", ids, [], maps, [], now⟩ := by
          simpa using hmem
        rw [hcv]
        exact ⟨rfl, rfl⟩

theorem upsertContextTasks_fields (now : Int) (db : Db) (u : String)
    (ids : List Nat) (maps : List (String × Nat)) :
    ∀ c ∈ (upsertContextTasks now db u ids maps).contexts,
      c.userNumber = u → c.taskIds = ids ∧ c.taskMappings = maps := by
  intro c hc hcu
  unfold upsertContextTasks at hc
  split at hc
  · next c0 hfind =>
      rcases List.mem_map.1 hc with ⟨c1, hc1, he⟩
      by_cases h1 : c1.userNumber = u
      · rw [if_pos h1] at he
        rw [← he]
        exact ⟨rfl, rfl⟩
      · rw [if_neg h1] at he
        rw [← he] at hcu
        exact absurd hcu h1
  · next hfind =>
      rcases List.mem_append.1 hc with hmem | hmem
      · have := List.find?_eq_none.1 hfind c hmem
        simp [hcu] at this
      · have hcv : c = ⟨u, some "task", [], ids, [], maps, now⟩ := by
          simpa using hmem
        rw [hcv]
        exact ⟨rfl, rfl⟩

theorem mapAligned_buildMappings {α β : Type} (f : α → β) (l : List α)
    (off : Nat) : mapAligned (buildMappings f off l) (l.map f) off := by
  intro i hi
  have hlen : i < l.length := by simpa using hi
  rw [lookup_buildMappings f l off i hlen]
  simp [List.getElem?_map]

theorem advanceCursor_contexts (now : Int) (db : Db) (pid off : Nat) :
    (advanceCursor now db pid off).contexts = db.contexts := rfl

theorem deleteCursor_contexts (db : Db) (pid : Nat) :
    (deleteCursor db pid).contexts = db.contexts := rfl

/-- C1 (amended): after a fresh get listing, the stored position map sends
the string key of position i+1 to the i-th saved id; after a pagination
page fetched at offset `newOffset`, the saved id list holds only that page
and the map keys continue the global display numbering, sending the key of
newOffset+i+1 to the i-th saved id. -/
theorem c1_position_map_alignment :
    (∀ now db user analysis c,
        (analysis.entityType = some "order" ∨ analysis.entityType = some "product") →
        c ∈ (handleGet now db user analysis).2.contexts →
        c.userNumber = user →
        mapAligned c.orderMappings c.orderIds 0)
    ∧ (∀ now db user analysis c,
        (analysis.entityType = some "task" ∨ analysis.entityType = some "reminder") →
        c ∈ (handleGet now db user analysis).2.contexts →
        c.userNumber = user →
        mapAligned c.taskMappings c.taskIds 0)
    ∧ (∀ now db user filters newOffset pid c,
        ((getOrders now db user
            { filters with offset := some newOffset, limit := some 5 }).1).isEmpty = false →
        c ∈ (handleOrderPagination now db user filters newOffset pid).2.1.contexts →
        c.userNumber = user →
        mapAligned c.orderMappings c.orderIds newOffset)
    ∧ (∀ now db user filters newOffset pid c,
        ((getTasks now db user
            { filters with offset := some newOffset, limit := some 5 }).1).isEmpty = false →
        c ∈ (handleTaskPagination now db user filters newOffset pid).2.1.contexts →
        c.userNumber = user →
        mapAligned c.taskMappings c.taskIds newOffset) := by
  refine ⟨?_, ?_, ?_, ?_⟩
  · intro now db user analysis c hET hc hcu
    have hnotTask : ¬(analysis.entityType = some "task" ∨ analysis.entityType = some "reminder") := by
      rcases hET with h | h <;> rw [h] <;> decide
    unfold handleGet at hc
    rw [if_neg hnotTask, if_pos hET] at hc
    dsimp only at hc
    obtain ⟨h1, h2⟩ := upsertContextOrders_fields _ _ _ _ _ c hc hcu
    rw [h1, h2]
    exact mapAligned_buildMappings orderDisplayId _ 0
  · intro now db user analysis c hET hc hcu
    unfold handleGet at hc
    rw [if_pos hET] at hc
    dsimp only at hc
    obtain ⟨h1, h2⟩ := upsertContextTasks_fields _ _ _ _ _ c hc hcu
    rw [h1, h2]
    exact mapAligned_buildMappings Task.id _ 0
  · intro now db user filters newOffset pid c hpage hc hcu
    unfold handleOrderPagination at hc
    simp only [hpage, Bool.not_false, Bool.false_eq_true, not_false_iff, if_true,
      apply_ite Db.contexts, advanceCursor_contexts, deleteCursor_contexts,
      ite_self] at hc
    obtain ⟨h1, h2⟩ := upsertContextOrders_fields _ _ _ _ _ c hc hcu
    rw [h1, h2]
    exact mapAligned_buildMappings orderDisplayId _ newOffset
  · intro now db user filters newOffset pid c hpage hc hcu
    unfold handleTaskPagination at hc
    simp only [hpage, Bool.not_false, Bool.false_eq_true, not_false_iff, if_true,
      apply_ite Db.contexts, advanceCursor_contexts, deleteCursor_contexts,
      ite_self] at hc
    obtain ⟨h1, h2⟩ := upsertContextTasks_fields _ _ _ _ _ c hc hcu
    rw [h1, h2]
    exact mapAligned_buildMappings Task.id _ newOffset

/-- Witness for C1: the fresh-get clause applied to the six-order fixture,
read back at position 1. -/
theorem c1_position_map_alignment_witness :
    ∃ c ∈ c1AfterGet.contexts,
      lookupKey c.orderMappings (natKey 1) = c.orderIds.get? 0 := by
  have he : c1AfterGet.contexts =
      [⟨exUser, some "order", ["ORD-0", "ORD-1", "ORD-2", "ORD-3", "ORD-4"], [],
        [("1", "ORD-0"), ("2", "ORD-1"), ("3", "ORD-2"), ("4", "ORD-3"), ("5", "ORD-4")],
        [], 0⟩] := rfl
  refine ⟨_, by rw [he]; exact List.mem_singleton.2 rfl, ?_⟩
  have hmem : (⟨exUser, some "order",
      ["ORD-0", "ORD-1", "ORD-2", "ORD-3", "ORD-4"], [],
      [("1", "ORD-0"), ("2", "ORD-1"), ("3", "ORD-2"), ("4", "ORD-3"), ("5", "ORD-4")],
      [], 0⟩ : UserContextRow) ∈ (handleGet 0 c1Db exUser exGetOrdersAnalysis).2.contexts := by
    rw [show (handleGet 0 c1Db exUser exGetOrdersAnalysis).2.contexts
        = c1AfterGet.contexts from rfl, he]
    exact List.mem_singleton.2 rfl
  exact c1_position_map_alignment.1 0 c1Db exUser exGetOrdersAnalysis _
    (Or.inl rfl) hmem rfl 0 (by decide)

/-- C1 is false as stated: the pagination page produced by replying "next"
after a fresh six-order listing stores the id list ["ORD-5"] while the map
holds only the key "6"; the key str(0+1) = "1" is absent, so
orderPositionMap[str(i+1)] differs from orderIdList[i] at i = 0. -/
theorem c1_counterexample :
    c1AfterNext.stage = Stage.pagination
    ∧ c1AfterNext.db.contexts.map
        (fun c => (lookupKey c.orderMappings (natKey 1),
                   lookupKey c.orderMappings (natKey 6), c.orderIds))
      = [(none, some "ORD-5", ["ORD-5"])] := by
  constructor
  · rfl
  · rfl

/-! ## C5: resolution of a duplicate-order-decision confirmation -/

theorem updateOrder_orders_length (db : Db) (oid : String) (u : UpdatesJson)
    (r : Order × Db) (h : updateOrder db oid u = some r) :
    r.2.orders.length = db.orders.length := by
  unfold updateOrder at h
  split at h
  · exact absurd h (by simp)
  · next o ho =>
      cases h
      simp

/-- C5: with a live duplicate-order-decision confirmation, a body starting
with "new" creates a fresh order whose fields come from the pending
payload and whose fulfillment date is re-parsed from the original
free-text string; a body starting with "update" patches the referenced
order with the pending product name and quantity and inserts nothing; a
no/cancel body deletes the confirmation and leaves orders untouched; any
other body re-prompts with the new-or-update question and changes nothing.
The stage replies in all four cases. -/
theorem c5_duplicate_decision :
    ∀ (jsParse : List Char → Option Int) (now : Int) (db : Db) (user : String)
      (body : List Char) (p : PendingConfirmation),
      latestLiveConfirmation now db user = some p →
      p.updates.action = some "create_duplicate" →
      strTruthy p.orderId = true →
      (handleConfirmation jsParse now db user body).isSome = true
      ∧ (isNewBody body = true →
          ∃ o db2, handleConfirmation jsParse now db user body
              = some (Msg.createOrderOk o, db2)
            ∧ db2.orders = db.orders ++ [o]
            ∧ o.productName = p.updates.productName.getD ""
            ∧ o.quantity = p.updates.quantity.getD 1
            ∧ o.fulfillmentDate
                = some (resolveOrderFulfillment jsParse now p.updates.fulfillmentDate)
            ∧ ∀ q ∈ db2.pendingConfirmations, q.id ≠ p.id)
      ∧ (isNewBody body = false → isUpdateBody body = true →
          ∃ m db2, handleConfirmation jsParse now db user body = some (m, db2)
            ∧ db2.orders.length = db.orders.length
            ∧ (∀ q ∈ db2.pendingConfirmations, q.id ≠ p.id)
            ∧ (∀ oid r, p.orderId = some oid →
                updateOrder db oid
                  { productName := if strTruthy p.updates.productName then
                      p.updates.productName else none,
                    quantity := p.updates.quantity } = some r →
                m = Msg.updateOrderOk r.1 ∧ db2.orders = r.2.orders))
      ∧ (isNewBody body = false → isUpdateBody body = false → isNoBody body = true →
          handleConfirmation jsParse now db user body
            = some (Msg.text "Order creation cancelled. How else can I help you?",
                    deleteConfirmation db p.id)
          ∧ (deleteConfirmation db p.id).orders = db.orders)
      ∧ (isNewBody body = false → isUpdateBody body = false → isNoBody body = false →
          handleConfirmation jsParse now db user body
            = some (Msg.text "Please reply \x27new\x27 for a new order or \x27update\x27 to modify the existing one.",
                    db)) := by
  intro jsParse now db user body p hlatest ha ht
  have hcond : p.updates.action = some "create_duplicate" ∧ strTruthy p.orderId = true :=
    ⟨ha, ht⟩
  refine ⟨?_, ?_, ?_, ?_, ?_⟩
  · by_cases hn : isNewBody body = true
    · unfold handleConfirmation
      rw [hlatest]
      dsimp only
      rw [if_pos hcond, if_pos hn]
      rfl
    · by_cases hu2 : isUpdateBody body = true
      · unfold handleConfirmation
        rw [hlatest]
        dsimp only
        rw [if_pos hcond, if_neg hn, if_pos hu2]
        cases updateOrder db (p.orderId.getD "")
          { productName := if strTruthy p.updates.productName then
              p.updates.productName else none,
            quantity := p.updates.quantity } <;> rfl
      · by_cases hno : isNoBody body = true
        · unfold handleConfirmation
          rw [hlatest]
          dsimp only
          rw [if_pos hcond, if_neg hn, if_neg hu2, if_pos hno]
          rfl
        · unfold handleConfirmation
          rw [hlatest]
          dsimp only
          rw [if_pos hcond, if_neg hn, if_neg hu2, if_neg hno]
          rfl
  · intro hnew
    have hmain : handleConfirmation jsParse now db user body
        = some (Msg.createOrderOk (createOrderDb jsParse now db user
            (p.updates.productName.getD "") (p.updates.quantity.getD 1) none
            p.updates.fulfillmentDate p.originalMessage none).1,
          deleteConfirmation (createOrderDb jsParse now db user
            (p.updates.productName.getD "") (p.updates.quantity.getD 1) none
            p.updates.fulfillmentDate p.originalMessage none).2 p.id) := by
      unfold handleConfirmation
      rw [hlatest]
      dsimp only
      rw [if_pos hcond, if_pos hnew]
    refine ⟨_, _, hmain, rfl, rfl, rfl, rfl, ?_⟩
    intro q hq
    simpa using (List.mem_filter.1 hq).2
  · intro hnew hupd
    cases hu : updateOrder db (p.orderId.getD "")
      { productName := if strTruthy p.updates.productName then
          p.updates.productName else none,
        quantity := p.updates.quantity } with
    | some r =>
        have hmain : handleConfirmation jsParse now db user body
            = some (Msg.updateOrderOk r.1, deleteConfirmation r.2 p.id) := by
          unfold handleConfirmation
          rw [hlatest]
          dsimp only
          rw [if_pos hcond, if_neg (by simp [hnew]), if_pos hupd, hu]
        refine ⟨_, _, hmain, ?_, ?_, ?_⟩
        · exact updateOrder_orders_length db _ _ r hu
        · intro q hq
          simpa using (List.mem_filter.1 hq).2
        · intro oid r' hoid hu'
          have hgd : p.orderId.getD "" = oid := by rw [hoid]; rfl
          rw [hgd, hu'] at hu
          cases hu
          exact ⟨rfl, rfl⟩
    | none =>
        have hmain : handleConfirmation jsParse now db user body
            = some (Msg.text "I\x27m sorry, I couldn\x27t update that order. Please try again.",
                    deleteConfirmation db p.id) := by
          unfold handleConfirmation
          rw [hlatest]
          dsimp only
          rw [if_pos hcond, if_neg (by simp [hnew]), if_pos hupd, hu]
        refine ⟨_, _, hmain, rfl, ?_, ?_⟩
        · intro q hq
          simpa using (List.mem_filter.1 hq).2
        · intro oid r' hoid hu'
          have hgd : p.orderId.getD "" = oid := by rw [hoid]; rfl
          rw [hgd, hu'] at hu
          cases hu
  · intro hnew hupd hno
    constructor
    · unfold handleConfirmation
      rw [hlatest]
      dsimp only
      rw [if_pos hcond, if_neg (by simp [hnew]), if_neg (by simp [hupd]), if_pos hno]
    · rfl
  · intro hnew hupd hno
    unfold handleConfirmation
    rw [hlatest]
    dsimp only
    rw [if_pos hcond, if_neg (by simp [hnew]), if_neg (by simp [hupd]),
      if_neg (by simp [hno])]

/-- Witness for C5: the fixture confirmation with the body "new". -/
theorem c5_duplicate_decision_witness :
    (handleConfirmation exJsParse 1 { emptyDb with pendingConfirmations := [c5Pending] }
      exUser ("new".toList)).isSome = true :=
  (c5_duplicate_decision exJsParse 1 { emptyDb with pendingConfirmations := [c5Pending] }
    exUser ("new".toList) c5Pending rfl rfl rfl).1

/-! ## C4: a live confirmation always terminates the message -/

theorem handleConfirmation_some_of_shape :
    ∀ (jsParse : List Char → Option Int) (now : Int) (db : Db) (user : String)
      (body : List Char) (p : PendingConfirmation),
      latestLiveConfirmation now db user = some p →
      reachableShape p →
      (handleConfirmation jsParse now db user body).isSome = true := by
  intro jsParse now db user body p hlatest hshape
  unfold handleConfirmation
  rw [hlatest]
  dsimp only
  by_cases hdup : p.updates.action = some "create_duplicate" ∧ strTruthy p.orderId = true
  · rw [if_pos hdup]
    by_cases hn : isNewBody body = true
    · rw [if_pos hn]; rfl
    · rw [if_neg hn]
      by_cases hu : isUpdateBody body = true
      · rw [if_pos hu]
        cases updateOrder db (p.orderId.getD "")
          { productName := if strTruthy p.updates.productName then
              p.updates.productName else none,
            quantity := p.updates.quantity } <;> rfl
      · rw [if_neg hu]
        by_cases hno : isNoBody body = true
        · rw [if_pos hno]; rfl
        · rw [if_neg hno]; rfl
  · rw [if_neg hdup]
    have htid : p.taskId.isSome = true := by
      rcases hshape with h | h
      · exact absurd h hdup
      · exact h
    rw [if_pos htid]
    by_cases hy : isYesBody body = true
    · rw [if_pos hy]
      cases updateTask db (p.taskId.getD 0) p.updates <;> rfl
    · rw [if_neg hy]
      by_cases hno : isNoBody body = true
      · rw [if_pos hno]; rfl
      · rw [if_neg hno]
        cases db.tasks.find? (fun t => t.id = p.taskId.getD 0) <;> rfl

/-- C4: when a live pending confirmation of a shape the code ever writes
exists for the sender, fresh classification is never reached; and when the
earlier stages do not apply (not forwarded, no reply reference, not a
pagination trigger, nonempty body), the message is terminated by the
confirmation stage itself. -/
theorem c4_confirmation_never_skipped :
    ∀ (analyze : String → Analysis)
      (matchTask : String → List Task → TaskMatchResult)
      (jsParse : List Char → Option Int) (now : Int) (db : Db)
      (msg : Inbound) (p : PendingConfirmation),
      latestLiveConfirmation now db msg.fromNumber = some p →
      reachableShape p →
      (route analyze matchTask jsParse now db msg).stage ≠ Stage.classify
      ∧ (msg.isForwarded = false → msg.referredMessageSid = none →
          isNextBody (lowerStr (trimChars msg.body.toList)) = false →
          (trimChars msg.body.toList).isEmpty = false →
          (route analyze matchTask jsParse now db msg).stage = Stage.confirmation) := by
  intro analyze matchTask jsParse now db msg p hlatest hshape
  have hconf := handleConfirmation_some_of_shape jsParse now db msg.fromNumber
    (lowerStr (trimChars msg.body.toList)) p hlatest hshape
  obtain ⟨cr, hcr⟩ := Option.isSome_iff_exists.1 hconf
  constructor
  · intro hstage
    unfold route at hstage
    by_cases hempty : (trimChars msg.body.toList).isEmpty = true
    · rw [if_pos hempty] at hstage
      simp at hstage
    · rw [if_neg hempty] at hstage
      dsimp only at hstage
      split at hstage
      · simp at hstage
      · split at hstage
        · simp at hstage
        · split at hstage
          · simp at hstage
          · split at hstage
            · simp at hstage
            · next heq =>
                rw [hcr] at heq
                cases heq
  · intro hf hr hnext hempty
    have hpag : handlePagination now db msg.fromNumber
        (lowerStr (trimChars msg.body.toList)) = none := by
      unfold handlePagination
      rw [hnext]
      simp
    unfold route
    rw [hf, hr]
    simp only [hempty, Bool.false_eq_true, if_false, ite_false]
    rw [hpag, hcr]

/-- Witness for C4: the fixture duplicate confirmation with an unrelated
body resolves at the confirmation stage. -/
theorem c4_confirmation_never_skipped_witness :
    (route (fun _ => exUnknownAnalysis) (fun _ _ => exNoMatch) exJsParse 1
      { emptyDb with pendingConfirmations := [c5Pending] }
      { fromNumber := exUser, body := "hello", isForwarded := false,
        referredMessageSid := none }).stage = Stage.confirmation :=
  (c4_confirmation_never_skipped (fun _ => exUnknownAnalysis) (fun _ _ => exNoMatch)
    exJsParse 1 { emptyDb with pendingConfirmations := [c5Pending] }
    { fromNumber := exUser, body := "hello", isForwarded := false,
      referredMessageSid := none } c5Pending rfl (Or.inl ⟨rfl, rfl⟩)).2
    rfl rfl (by decide) (by decide)

/-! ## C6: expired confirmations behave as absent -/

theorem latestLiveConfirmation_eq_none :
    ∀ (now : Int) (db : Db) (u : String),
      (∀ p ∈ db.pendingConfirmations, p.userNumber = u → p.expiresAt ≤ now) →
      latestLiveConfirmation now db u = none := by
  intro now db u h
  unfold latestLiveConfirmation
  have h2 : db.pendingConfirmations.filter
      (fun p => decide (p.userNumber = u ∧ now < p.expiresAt)) = [] := by
    rw [List.filter_eq_nil_iff]
    intro p hp
    simp only [decide_eq_true_eq, not_and, not_lt]
    intro hu
    exact h p hp hu
  rw [h2]
  rfl

/-- C6: when every pending confirmation for the sender has expired, the
confirmation stage declines every body ("yes" included) as though no row
existed, and a message with no earlier-stage trigger falls through to
fresh classification; with an unknown classified intent the reply is the
generic help text and the store is untouched, so expiry is never surfaced
as an error. -/
theorem c6_expired_treated_absent :
    ∀ (analyze : String → Analysis)
      (matchTask : String → List Task → TaskMatchResult)
      (jsParse : List Char → Option Int) (now : Int) (db : Db)
      (msg : Inbound),
      (∀ p ∈ db.pendingConfirmations, p.userNumber = msg.fromNumber →
        p.expiresAt ≤ now) →
      msg.isForwarded = false → msg.referredMessageSid = none →
      isNextBody (lowerStr (trimChars msg.body.toList)) = false →
      (trimChars msg.body.toList).isEmpty = false →
      (analyze msg.body).intent = "unknown" →
      handleConfirmation jsParse now db msg.fromNumber
        (lowerStr (trimChars msg.body.toList)) = none
      ∧ route analyze matchTask jsParse now db msg =
          ⟨Stage.classify, Msg.unknownIntentHelp, db, 0⟩ := by
  intro analyze matchTask jsParse now db msg hexp hf hr hnext hempty hintent
  have hconf : handleConfirmation jsParse now db msg.fromNumber
      (lowerStr (trimChars msg.body.toList)) = none := by
    unfold handleConfirmation
    rw [latestLiveConfirmation_eq_none now db msg.fromNumber hexp]
  refine ⟨hconf, ?_⟩
  have hpag : handlePagination now db msg.fromNumber
      (lowerStr (trimChars msg.body.toList)) = none := by
    unfold handlePagination
    rw [hnext]
    simp
  unfold route
  rw [hf, hr]
  simp only [hempty, Bool.false_eq_true, if_false, ite_false]
  rw [hpag, hconf]
  dsimp only
  rw [hintent]
  rfl

/-- Witness for C6: an expired task confirmation plus the body "yes"
reaches classification and returns the help text with the store
unchanged. -/
theorem c6_expired_treated_absent_witness :
    route (fun _ => exUnknownAnalysis) (fun _ _ => exNoMatch) exJsParse 5 c6Db
      { fromNumber := exUser, body := "yes", isForwarded := false,
        referredMessageSid := none } =
      ⟨Stage.classify, Msg.unknownIntentHelp, c6Db, 0⟩ :=
  (c6_expired_treated_absent (fun _ => exUnknownAnalysis) (fun _ _ => exNoMatch)
    exJsParse 5 c6Db
    { fromNumber := exUser, body := "yes", isForwarded := false,
      referredMessageSid := none }
    (by decide) rfl rfl (by decide) (by decide) rfl).2

/-! ## C8: status-keyword fallback on replies -/

/-- C8: in the reply stage with a context carrying an entity type, an
unknown classified intent whose body contains a status keyword is
rewritten into an update intent with the mapped status and handed to the
context update handler; the keyword table maps the claimed words as
stated, and the concrete bare "done" against a task context updates the
referenced task to completed instead of surfacing the unknown-intent help
text. -/
theorem c8_keyword_fallback :
    (∀ (analyze : String → Analysis) (jsParse : List Char → Option Int)
      (now : Int) (db : Db) (user body : String) (context : MessageContext)
      (st : String),
      (analyze body).intent = "unknown" →
      strTruthy context.entityType = true →
      firstStatusKeyword (lowerStr body.toList) = some st →
      handleReply analyze jsParse now db user body context =
        handleUpdateWithContext jsParse now db user body
          { intent := "update", entityType := context.entityType,
            parameters := { status := some st } } context)
    ∧ firstStatusKeyword "done".toList = some "completed"
    ∧ firstStatusKeyword "complete".toList = some "completed"
    ∧ firstStatusKeyword "completed".toList = some "completed"
    ∧ firstStatusKeyword "processing".toList = some "processing"
    ∧ firstStatusKeyword "pending".toList = some "pending"
    ∧ firstStatusKeyword "cancelled".toList = some "cancelled"
    ∧ firstStatusKeyword "cancel".toList = some "cancelled"
    ∧ c8Result.stage = Stage.reply
    ∧ c8Result.reply = Msg.updateTaskOk { c8Task with status := "completed" }
    ∧ (c8Result.db.tasks.map (fun t => (t.id, t.status))) = [(42, "completed")]
    ∧ c8Result.reply ≠ Msg.unknownIntentHelp := by
  refine ⟨?_, rfl, rfl, rfl, rfl, rfl, rfl, rfl, rfl, rfl, rfl, by decide⟩
  intro analyze jsParse now db user body context st hint hent hkw
  unfold handleReply
  dsimp only
  have hcond : (analyze body).intent = "unknown"
      ∧ strTruthy context.entityType = true := ⟨hint, hent⟩
  rw [if_pos hcond, hkw]
  dsimp only
  rw [if_pos ⟨rfl, hent⟩]

/-- Witness for C8: the bare "done" reply against the fixture task context
goes through the synthesized update analysis. -/
theorem c8_keyword_fallback_witness :
    handleReply (fun _ => exUnknownAnalysis) exJsParse 5 c8Db exUser "done"
      { entityType := some "task", orderIds := [], taskIds := [42],
        orderMappings := [], taskMappings := [(natKey 1, 42)] } =
      handleUpdateWithContext exJsParse 5 c8Db exUser "done"
        { intent := "update", entityType := some "task",
          parameters := { status := some "completed" } }
        { entityType := some "task", orderIds := [], taskIds := [42],
          orderMappings := [], taskMappings := [(natKey 1, 42)] } :=
  c8_keyword_fallback.1 (fun _ => exUnknownAnalysis) exJsParse 5 c8Db exUser
    "done"
    { entityType := some "task", orderIds := [], taskIds := [42],
      orderMappings := [], taskMappings := [(natKey 1, 42)] }
    "completed" rfl rfl rfl

/-! ## C9: relative fulfillment and due dates -/

theorem dayIndex_ediv : ∀ (t : Int), dayIndex t = t / 86400000 := by
  intro t
  unfold dayIndex msPerDay
  exact Int.fdiv_eq_ediv t (by norm_num)

theorem getDayOfWeek_emod : ∀ (t : Int),
    getDayOfWeek t = (t / 86400000 + 4) % 7 := by
  intro t
  unfold getDayOfWeek
  rw [dayIndex_ediv]
  exact Int.fmod_eq_emod _ (by norm_num)

/-- C9 counterexample: relative date parsing does not always roll forward.
Both the task due-date pipeline of `createTask` and the fallback
fulfillment parser of `createOrder` resolve "this tuesday", sent on a
Tuesday at 14:00, to that same Tuesday at local midnight — fourteen hours
in the past. -/
theorem c9_counterexample :
    parseTaskDueDate (fun _ => none) exTue1400 "this tuesday"
      = some (startOfDay exTue1400)
    ∧ orderFallbackParse (fun _ => none) exTue1400 "this tuesday"
      = some (startOfDay exTue1400)
    ∧ startOfDay exTue1400 < exTue1400 :=
  ⟨rfl, rfl, by decide⟩

/-- C9 (amended): an order created with the fulfillment string
"tomorrow 5pm" at any moment of a Monday stores the following Tuesday at
17:00 local time, independently of the engine date parser, and that
timestamp is strictly in the future; the unconditional never-in-the-past
clause fails (see the counterexample). -/
theorem c9_tomorrow_never_past :
    ∀ (jsParse : List Char → Option Int) (now : Int),
      getDayOfWeek now = 1 →
      resolveOrderFulfillment jsParse now (some "tomorrow 5pm")
        = startOfDay now + msPerDay + 17 * msPerHour
      ∧ getDayOfWeek (resolveOrderFulfillment jsParse now (some "tomorrow 5pm")) = 2
      ∧ timeOfDayMs (resolveOrderFulfillment jsParse now (some "tomorrow 5pm"))
          = 17 * msPerHour
      ∧ now < resolveOrderFulfillment jsParse now (some "tomorrow 5pm") := by
  intro jsParse now h
  have h0 : resolveOrderFulfillment jsParse now (some "tomorrow 5pm")
      = startOfDay now + msPerDay + 17 * msPerHour + 0 * msPerMinute := rfl
  have heq : resolveOrderFulfillment jsParse now (some "tomorrow 5pm")
      = startOfDay now + msPerDay + 17 * msPerHour := by
    rw [h0, zero_mul, add_zero]
  refine ⟨heq, ?_, ?_, ?_⟩
  · rw [heq]
    rw [getDayOfWeek_emod] at h ⊢
    simp only [startOfDay, dayIndex_ediv, msPerDay, msPerHour] at h ⊢
    omega
  · rw [heq]
    simp only [timeOfDayMs, startOfDay, dayIndex_ediv, msPerDay, msPerHour]
    omega
  · rw [heq]
    simp only [startOfDay, dayIndex_ediv, msPerDay, msPerHour]
    omega

/-- Witness for C9: a concrete Monday noon send of "tomorrow 5pm". -/
theorem c9_tomorrow_never_past_witness :
    getDayOfWeek exMonday1200 = 1
    ∧ exMonday1200 <
        resolveOrderFulfillment exJsParse exMonday1200 (some "tomorrow 5pm") :=
  ⟨by decide,
    (c9_tomorrow_never_past exJsParse exMonday1200 (by decide)).2.2.2⟩

/-! ## C3: duplicate-order gate on create -/

theorem upsertDupConfirmation_orders :
    ∀ (now : Int) (db : Db) (u : String) (oid : Option String)
      (upd : UpdatesJson) (om : String),
      (upsertDupConfirmation now db u oid upd om).orders = db.orders := by
  intro now db u oid upd om
  unfold upsertDupConfirmation
  split <;> rfl

theorem upsertDupConfirmation_spec :
    ∀ (now : Int) (db : Db) (user : String) (oid : Option String)
      (upd : UpdatesJson) (om : String),
      ∃ c ∈ (upsertDupConfirmation now db user oid upd om).pendingConfirmations,
        c.userNumber = user ∧ c.orderId = oid ∧ c.updates = upd
        ∧ c.originalMessage = some om
        ∧ c.expiresAt = now + 10 * msPerMinute := by
  intro now db user oid upd om
  unfold upsertDupConfirmation
  split
  next p0 heq =>
    have hmem : p0 ∈ db.pendingConfirmations := List.mem_of_find?_eq_some heq
    have hu' := List.find?_some heq
    simp only [decide_eq_true_eq] at hu'
    have hu : p0.userNumber = user := hu'
    let c0 : PendingConfirmation :=
      { p0 with orderId := oid, updates := upd,
                originalMessage := some om,
                expiresAt := now + 10 * msPerMinute }
    refine ⟨c0, ?_, hu, rfl, rfl, rfl, rfl⟩
    have h2 := List.mem_map_of_mem
      (fun p => if p.userNumber = user then
        { p with orderId := oid, updates := upd, originalMessage := some om,
                 expiresAt := now + 10 * msPerMinute }
        else p) hmem
    dsimp only at h2
    rw [if_pos hu] at h2
    exact h2
  next heq =>
    dsimp only
    let row : PendingConfirmation :=
      { id := db.nextId, userNumber := user, taskId := none,
        orderId := oid, updates := upd, originalMessage := some om,
        createdAt := now, expiresAt := now + 10 * msPerMinute }
    exact ⟨row, List.mem_append_right _ (List.mem_singleton_self _),
      rfl, rfl, rfl, rfl, rfl⟩

/-- C3 counterexample: the duplicate check only scans the first hundred
pending orders returned by the sorted limit-100 fetch. With one hundred
earlier-dated pending orders in front, a create request matching the
hundred-and-first pending order case-insensitively, with equal quantity
and an identical fulfillment timestamp, slips past the gate: a second
near-identical pending row is inserted and no duplicate-decision
confirmation is written. -/
theorem c3_counterexample :
    c3BigResult.2.orders.length = 102
    ∧ c3BigResult.2.pendingConfirmations = []
    ∧ ((c3BigResult.2.orders.drop 100).map (fun o =>
        (lowerStr o.productName.toList, o.quantity, o.fulfillmentDate,
         o.status, o.userNumber)))
      = [("cake".toList, 1, some 86400000, "pending", exUser),
         ("cake".toList, 1, some 86400000, "pending", exUser)] := by
  refine ⟨rfl, rfl, rfl⟩

/-- C3 (amended): when the matching pending order is among the hundred
rows the gate fetches, the duplicate gate holds: no order row is
inserted, the reply is the duplicate prompt for the matched order, and a
confirmation carrying the would-be order's product name, quantity and
original fulfillment string under action `create_duplicate` is persisted
with a ten-minute expiry. -/
theorem c3_duplicate_gate :
    ∀ (jsParse : List Char → Option Int) (now : Int) (db : Db) (user : String)
      (analysis : Analysis) (body : String) (parsed : Int) (dup : Order),
      analysis.entityType = some "order" →
      strTruthy analysis.parameters.fulfillmentDate = true →
      parseDateTimeSpec now (analysis.parameters.fulfillmentDate.getD "")
        = some parsed →
      ((getOrders now db user { status := some "pending", limit := some 100 }).1.filter
        (fun o =>
          (lowerStr o.productName.toList
            == lowerStr (requestProductName analysis.parameters).toList)
          && (o.quantity == requestQuantity analysis.parameters)
          && (match o.fulfillmentDate with
              | none => false
              | some od => decide ((od - parsed).natAbs < 60000)))).head?
        = some dup →
      (handleCreate jsParse now db user analysis body).1
        = Msg.duplicateOrderPrompt dup
      ∧ (handleCreate jsParse now db user analysis body).2
        = upsertDupConfirmation now db user dup.orderId
            { productName := some (requestProductName analysis.parameters),
              quantity := some (requestQuantity analysis.parameters),
              fulfillmentDate := analysis.parameters.fulfillmentDate,
              action := some "create_duplicate" } body
      ∧ (handleCreate jsParse now db user analysis body).2.orders = db.orders
      ∧ ∃ c ∈ (handleCreate jsParse now db user analysis body).2.pendingConfirmations,
          c.userNumber = user ∧ c.orderId = dup.orderId
          ∧ c.updates =
              { productName := some (requestProductName analysis.parameters),
                quantity := some (requestQuantity analysis.parameters),
                fulfillmentDate := analysis.parameters.fulfillmentDate,
                action := some "create_duplicate" }
          ∧ c.originalMessage = some body
          ∧ c.expiresAt = now + 10 * msPerMinute := by
  intro jsParse now db user analysis body parsed dup hent hft hparse hfind
  have hne1 : ¬(analysis.entityType = some "task"
      ∨ analysis.entityType = some "reminder") := by
    rw [hent]; decide
  have hmain : handleCreate jsParse now db user analysis body
      = (Msg.duplicateOrderPrompt dup,
         upsertDupConfirmation now db user dup.orderId
           { productName := some (requestProductName analysis.parameters),
             quantity := some (requestQuantity analysis.parameters),
             fulfillmentDate := analysis.parameters.fulfillmentDate,
             action := some "create_duplicate" } body) := by
    unfold handleCreate
    rw [if_neg hne1, if_pos (Or.inl hent)]
    dsimp only
    rw [if_pos hft, hparse]
    dsimp only
    rw [hfind]
  refine ⟨by rw [hmain], by rw [hmain], ?_, ?_⟩
  · rw [hmain]
    exact upsertDupConfirmation_orders now db user dup.orderId _ body
  · rw [hmain]
    exact upsertDupConfirmation_spec now db user dup.orderId _ body

/-- Witness for C3: one matching pending order in view; the create attempt
is converted into a duplicate prompt. -/
theorem c3_duplicate_gate_witness :
    (handleCreate exJsParse 0 c3SmallDb exUser c3Analysis
        "order cake for tomorrow").1
      = Msg.duplicateOrderPrompt (exOrder 0 "cake" 1 (some 86400000) 0) :=
  (c3_duplicate_gate exJsParse 0 c3SmallDb exUser c3Analysis
    "order cake for tomorrow" 86400000 (exOrder 0 "cake" 1 (some 86400000) 0)
    rfl rfl (by decide) (by decide)).1

end Bot
